import Mathlib

/-!
Shallow embedding of the configuration mutation resolvers of
`internal/api/resolver_mutation_configure.go` (stash).

The config store is modelled as a key-indexed map of typed values together
with a write log (one entry per typed-setter invocation).  External
collaborators (filesystem checks, regex compilation, binary probes, the
durable write, password hashing, map merging, API-key generation) are
modelled as oracles collected in an `Env` record.  Each resolver is a pure
function from the partial input record, the environment and the initial
store contents to an outcome that carries the final store state, whether a
non-null result record was returned, the returned error (if any) and
whether the Go code would have panicked (nil-pointer dereference).
-/

namespace Stash

/-- Blob storage backend selector (`config.BlobStorageType`). -/
inductive BlobStorageType where
  | filesystem
  | database
  deriving DecidableEq

/-- Video file naming algorithm (`models.HashAlgorithm`). -/
inductive HashAlgorithm where
  | md5
  | oshash
  deriving DecidableEq

/-- One library root (`StashConfigInput`): a path plus granularity flags. -/
structure StashInput where
  path : String
  excludeVideo : Bool
  excludeImage : Bool
  deriving DecidableEq

/-- A stash-box endpoint entry (`StashBoxInput`). -/
structure StashBox where
  endpoint : String
  apiKey : String
  name : String
  deriving DecidableEq

/-- Opaque UI / plugin configuration map (`map[string]interface` in Go),
carried without interpretation. -/
structure UIMap where
  raw : List (String × String)
  deriving DecidableEq

/-- Opaque structured settings blob (identify / scan / autotag / generate
default settings), carried without interpretation. -/
structure JSONBlob where
  raw : String
  deriving DecidableEq

/-- A typed configuration value as held by the config store. -/
inductive CValue where
  | vs (s : String)
  | vb (b : Bool)
  | vi (n : Int)
  | vf (x : Int)
  | vls (l : List String)
  | vstash (l : List StashInput)
  | vblob (t : BlobStorageType)
  | vhash (a : HashAlgorithm)
  | vboxes (l : List StashBox)
  | vui (m : UIMap)
  | vjs (b : JSONBlob)
  deriving DecidableEq

/-- Errors a mutation resolver can return.  `ext` wraps errors coming from
external collaborators; `readOnlyPayload` is the tolerant-mode commit
failure carrying the serialized change set. -/
inductive ConfigError where
  | overriddenConfig (key : String)
  | invalidDatabaseExt
  | blobsPathRequired
  | md5Required
  | invalidFfmpeg (msg : String)
  | invalidFfprobe (msg : String)
  | invalidGalleryCoverRegex (pat : String) (msg : String)
  | invalidVideoExclude (pat : String) (msg : String)
  | invalidImageExclude (pat : String) (msg : String)
  | invalidTagExclude (pat : String) (msg : String)
  | ext (msg : String)
  | readOnlyPayload (payload : List (String × CValue))
  deriving DecidableEq

/-- Observable side effects of a resolver invocation, in order. -/
inductive Event where
  | writeCalled
  | refreshConfig
  | refreshScraperCache
  | refreshPluginCache
  | refreshFFMpeg
  | refreshStreamManager
  | setBlobStoreOptions
  | refreshScraperSourceManager
  | refreshPluginSourceManager
  | refreshDLNA
  | checkedDir (path : String)
  | logInfo (msg : String)
  | setLogLevelCalled (lvl : String)
  | initCustomPerformerImages (loc : String)
  deriving DecidableEq

/-- Whether an event is a subsystem refresh hook invocation. -/
def Event.isRefresh : Event → Bool
  | .refreshConfig => true
  | .refreshScraperCache => true
  | .refreshPluginCache => true
  | .refreshFFMpeg => true
  | .refreshStreamManager => true
  | .setBlobStoreOptions => true
  | .refreshScraperSourceManager => true
  | .refreshPluginSourceManager => true
  | .refreshDLNA => true
  | _ => false

/-- External collaborators (oracles) plus store-level configuration that the
resolvers only read: override set, filesystem and regex primitives, binary
probes, hashing, durable-write outcome, tolerant read-only flag. -/
structure Env where
  hasOverride : String → Bool
  dirExists : String → Bool × Option ConfigError
  ensureDir : String → Option ConfigError
  fileExt : String → String
  validateFFMpeg : String → Option String
  validateFFProbe : String → Option String
  validateNamingAlg : HashAlgorithm → Option ConfigError
  validateStashBoxes : List StashBox → Option ConfigError
  regexCompile : String → Option String
  hashPassword : String → String
  mergeMaps : UIMap → UIMap → UIMap
  nestedSet : UIMap → String → String → UIMap
  generateKey : String → Except ConfigError String
  writeResult : Option ConfigError
  allowReadOnly : Bool

/- Configuration keys (string identifiers of the config store). -/

def kStash : String := "stash"
def kDatabase : String := "database"
def kBackupDirectoryPath : String := "backup_directory_path"
def kGenerated : String := "generated"
def kScrapersPath : String := "scrapers_path"
def kPluginsPath : String := "plugins_path"
def kMetadata : String := "metadata"
def kCache : String := "cache"
def kBlobsPath : String := "blobs_path"
def kBlobsStorage : String := "blobs_storage"
def kFFMpegPath : String := "ffmpeg_path"
def kFFProbePath : String := "ffprobe_path"
def kVideoFileNamingAlgorithm : String := "video_file_naming_algorithm"
def kCalculateMD5 : String := "calculate_md5"
def kParallelTasks : String := "parallel_tasks"
def kPreviewAudio : String := "preview_audio"
def kPreviewSegments : String := "preview_segments"
def kPreviewSegmentDuration : String := "preview_segment_duration"
def kPreviewExcludeStart : String := "preview_exclude_start"
def kPreviewExcludeEnd : String := "preview_exclude_end"
def kPreviewPreset : String := "preview_preset"
def kTranscodeHardwareAcceleration : String := "transcode_hardware_acceleration"
def kMaxTranscodeSize : String := "max_transcode_size"
def kMaxStreamingTranscodeSize : String := "max_streaming_transcode_size"
def kWriteImageThumbnails : String := "write_image_thumbnails"
def kCreateImageClipsFromVideos : String := "create_image_clips_from_videos"
def kGalleryCoverRegex : String := "gallery_cover_regex"
def kUsername : String := "username"
def kPassword : String := "password"
def kMaxSessionAge : String := "max_session_age"
def kLogFile : String := "log_file"
def kLogOut : String := "log_out"
def kLogAccess : String := "log_access"
def kLogLevel : String := "log_level"
def kExclude : String := "exclude"
def kImageExclude : String := "image_exclude"
def kVideoExtensions : String := "video_extensions"
def kImageExtensions : String := "image_extensions"
def kGalleryExtensions : String := "gallery_extensions"
def kCreateGalleriesFromFolders : String := "create_galleries_from_folders"
def kCustomPerformerImageLocation : String := "custom_performer_image_location"
def kStashBoxes : String := "stash_boxes"
def kPythonPath : String := "python_path"
def kTranscodeInputArgs : String := "ffmpeg.transcode.input_args"
def kTranscodeOutputArgs : String := "ffmpeg.transcode.output_args"
def kLiveTranscodeInputArgs : String := "ffmpeg.live_transcode.input_args"
def kLiveTranscodeOutputArgs : String := "ffmpeg.live_transcode.output_args"
def kDrawFunscriptHeatmapRange : String := "draw_funscript_heatmap_range"
def kScraperPackageSources : String := "scraper_package_sources"
def kPluginPackageSources : String := "plugin_package_sources"
def kMenuItems : String := "menu_items"
def kSoundOnPreview : String := "sound_on_preview"
def kWallShowTitle : String := "wall_show_title"
def kNoBrowser : String := "no_browser"
def kNotificationsEnabled : String := "notifications_enabled"
def kShowScrubber : String := "show_scrubber"
def kWallPlayback : String := "wall_playback"
def kMaximumLoopDuration : String := "maximum_loop_duration"
def kAutostartVideo : String := "autostart_video"
def kShowStudioAsText : String := "show_studio_as_text"
def kAutostartVideoOnPlaySelected : String := "autostart_video_on_play_selected"
def kContinuePlaylistDefault : String := "continue_playlist_default"
def kLanguage : String := "language"
def kImageLightboxSlideshowDelay : String := "image_lightbox.slideshow_delay"
def kImageLightboxDisplayMode : String := "image_lightbox.display_mode"
def kImageLightboxScaleUp : String := "image_lightbox.scale_up"
def kImageLightboxResetZoomOnNav : String := "image_lightbox.reset_zoom_on_nav"
def kImageLightboxScrollMode : String := "image_lightbox.scroll_mode"
def kImageLightboxScrollAttemptsBeforeChange : String := "image_lightbox.scroll_attempts_before_change"
def kCSS : String := "css"
def kCSSEnabled : String := "css_enabled"
def kJavascript : String := "javascript"
def kJavascriptEnabled : String := "javascript_enabled"
def kCustomLocales : String := "custom_locales"
def kCustomLocalesEnabled : String := "custom_locales_enabled"
def kDisableDropdownCreatePerformer : String := "disable_dropdown_create.performer"
def kDisableDropdownCreateStudio : String := "disable_dropdown_create.studio"
def kDisableDropdownCreateTag : String := "disable_dropdown_create.tag"
def kDisableDropdownCreateMovie : String := "disable_dropdown_create.movie"
def kHandyKey : String := "handy_key"
def kFunscriptOffset : String := "funscript_offset"
def kUseStashHostedFunscript : String := "use_stash_hosted_funscript"
def kDLNAServerName : String := "dlna.server_name"
def kDLNADefaultIPWhitelist : String := "dlna.default_ip_whitelist"
def kDLNAVideoSortOrder : String := "dlna.video_sort_order"
def kDLNAPort : String := "dlna.port"
def kDLNADefaultEnabled : String := "dlna.default_enabled"
def kDLNAInterfaces : String := "dlna.interfaces"
def kScraperUserAgent : String := "scraper_user_agent"
def kScraperCDPPath : String := "scraper_cdp_path"
def kScraperExcludeTagPatterns : String := "scraper_exclude_tag_patterns"
def kScraperCertCheck : String := "scraper_cert_check"
def kDefaultIdentifySettings : String := "defaults.identify"
def kDefaultScanSettings : String := "defaults.scan"
def kDefaultAutoTagSettings : String := "defaults.autotag"
def kDefaultGenerateSettings : String := "defaults.generate"
def kDeleteFileDefault : String := "defaults.delete_file"
def kDeleteGeneratedDefault : String := "defaults.delete_generated"
def kApiKey : String := "api_key"
def kUI : String := "ui"

/- Typed getters over store contents (Go returns the zero value when the
stored value has a different dynamic type). -/

/-- `GetString`-style getter. -/
def getString (vals : String → CValue) (k : String) : String :=
  match vals k with
  | .vs s => s
  | _ => ""

/-- `GetBool`-style getter. -/
def getBool (vals : String → CValue) (k : String) : Bool :=
  match vals k with
  | .vb b => b
  | _ => false

/-- `GetStashPaths`. -/
def getStashPaths (vals : String → CValue) : List StashInput :=
  match vals kStash with
  | .vstash l => l
  | _ => []

/-- `GetBlobsStorage`. -/
def getBlobsStorage (vals : String → CValue) : BlobStorageType :=
  match vals kBlobsStorage with
  | .vblob t => t
  | _ => .database

/-- `GetVideoFileNamingAlgorithm`. -/
def getHashAlg (vals : String → CValue) : HashAlgorithm :=
  match vals kVideoFileNamingAlgorithm with
  | .vhash a => a
  | _ => .oshash

/-- `GetUIConfiguration`. -/
def getUIConfig (vals : String → CValue) : UIMap :=
  match vals kUI with
  | .vui m => m
  | _ => ⟨[]⟩

/-- Per-invocation mutable state: store contents, the setter write log, the
`localConfig` change set used for error payloads, the event trace, and the
refresh flags of `ConfigureGeneral` / `ConfigureScraping`. -/
structure MState where
  vals : String → CValue
  writeLog : List (String × CValue)
  localConfig : List (String × CValue)
  events : List Event
  fScraperCache : Bool
  fScraperSource : Bool
  fPluginCache : Bool
  fPluginSource : Bool
  fStreamManager : Bool
  fBlobStorage : Bool
  fFfmpeg : Bool

/-- Fresh state over initial store contents. -/
def mkState (vals : String → CValue) : MState :=
  ⟨vals, [], [], [], false, false, false, false, false, false, false⟩

/-- A typed-setter invocation: updates the in-memory value and logs the
write. -/
def storeSet (k : String) (v : CValue) (s : MState) : MState :=
  { s with
    vals := fun x => if x = k then v else s.vals x
    writeLog := s.writeLog ++ [(k, v)] }

/-- Go map assignment `m[k] = v`: replace an existing binding, else append. -/
def mapSet (m : List (String × CValue)) (k : String) (v : CValue) :
    List (String × CValue) :=
  if m.any (fun kv => kv.1 = k) then
    m.map (fun kv => if kv.1 = k then (k, v) else kv)
  else m ++ [(k, v)]

/-- Record a key/value pair into the `localConfig` change set. -/
def recordLocal (k : String) (v : CValue) (s : MState) : MState :=
  { s with localConfig := mapSet s.localConfig k v }

/-- Setter plus change-set record (the `setConfigX` helpers and the inline
`c.SetX` + `localConfig[key] =` pairs). -/
def applyKV (k : String) (v : CValue) (s : MState) : MState :=
  recordLocal k v (storeSet k v s)

/-- Append an observable event. -/
def addEvent (e : Event) (s : MState) : MState :=
  { s with events := s.events ++ [e] }

/-- `setConfigString` / `setConfigBool` / ... : apply only when the optional
field is present. -/
def applyOpt {α : Type} (v? : Option α) (k : String) (enc : α → CValue)
    (s : MState) : MState :=
  match v? with
  | some v => applyKV k (enc v) s
  | none => s

/-- Control flow of a field-processing block: continue, return early with an
error (`r` records whether a non-null result record accompanies it), or
panic (nil-pointer dereference). -/
inductive Step where
  | go (s : MState)
  | halt (s : MState) (r : Bool) (e : Option ConfigError)
  | panicked (s : MState)

/-- The state carried by a step outcome. -/
def Step.state : Step → MState
  | .go s => s
  | .halt s _ _ => s
  | .panicked s => s

/-- Sequencing of field-processing blocks (early return propagates). -/
def Step.then (x : Step) (f : MState → Step) : Step :=
  match x with
  | .go s => f s
  | .halt s r e => .halt s r e
  | .panicked s => .panicked s

/-- Run a list of blocks in order. -/
def runBlocks (blocks : List (MState → Step)) (s : MState) : Step :=
  match blocks with
  | [] => .go s
  | b :: rest => (b s).then (runBlocks rest)

/-- A block that never fails. -/
def pureBlk (f : MState → MState) : MState → Step :=
  fun s => .go (f s)

/-- Outcome of one resolver invocation: final state, whether a non-null
result record was returned, the returned error, and whether the Go code
panicked. -/
structure GOut where
  state : MState
  ok : Bool
  err : Option ConfigError
  panicked : Bool

/-- The partial update record of `ConfigureGeneral` (every field optional;
absent = leave unchanged). -/
structure ConfigGeneralInput where
  stashes : Option (List StashInput) := none
  databasePath : Option String := none
  backupDirectoryPath : Option String := none
  generatedPath : Option String := none
  scrapersPath : Option String := none
  pluginsPath : Option String := none
  metadataPath : Option String := none
  cachePath : Option String := none
  blobsPath : Option String := none
  blobsStorage : Option BlobStorageType := none
  ffmpegPath : Option String := none
  ffprobePath : Option String := none
  videoFileNamingAlgorithm : Option HashAlgorithm := none
  calculateMd5 : Option Bool := none
  parallelTasks : Option Int := none
  previewAudio : Option Bool := none
  previewSegments : Option Int := none
  previewSegmentDuration : Option Int := none
  previewExcludeStart : Option String := none
  previewExcludeEnd : Option String := none
  previewPreset : Option String := none
  transcodeHardwareAcceleration : Option Bool := none
  maxTranscodeSize : Option String := none
  maxStreamingTranscodeSize : Option String := none
  writeImageThumbnails : Option Bool := none
  createImageClipsFromVideos : Option Bool := none
  galleryCoverRegex : Option String := none
  username : Option String := none
  password : Option String := none
  maxSessionAge : Option Int := none
  logFile : Option String := none
  logOut : Option Bool := none
  logAccess : Option Bool := none
  logLevel : Option String := none
  excludes : Option (List String) := none
  imageExcludes : Option (List String) := none
  videoExtensions : Option (List String) := none
  imageExtensions : Option (List String) := none
  galleryExtensions : Option (List String) := none
  createGalleriesFromFolders : Option Bool := none
  customPerformerImageLocation : Option String := none
  stashBoxes : Option (List StashBox) := none
  pythonPath : Option String := none
  transcodeInputArgs : Option (List String) := none
  transcodeOutputArgs : Option (List String) := none
  liveTranscodeInputArgs : Option (List String) := none
  liveTranscodeOutputArgs : Option (List String) := none
  drawFunscriptHeatmapRange : Option Bool := none
  scraperPackageSources : Option (List String) := none
  pluginPackageSources : Option (List String) := none

/-- First pattern in the list that fails to compile, with the compiler
message (the `for _, r := range ...; regexp.Compile(r)` loops). -/
def firstBad (env : Env) : List String → Option (String × String)
  | [] => none
  | p :: rest =>
    match env.regexCompile p with
    | some m => some (p, m)
    | none => firstBad env rest

/-- The stash-path validation loop: new paths (matching no existing entry)
must exist on disk; existing paths are not re-checked. -/
def checkStashes (env : Env) (existing : List StashInput) :
    List StashInput → MState → Step
  | [], s => .go s
  | st :: rest, s =>
    if existing.any (fun p => p.path = st.path) then
      checkStashes env existing rest s
    else
      let ex := (env.dirExists st.path).1
      let er := (env.dirExists st.path).2
      let s1 := addEvent (.checkedDir st.path) s
      if ex then checkStashes env existing rest s1
      else .halt s1 true er

/-- Stashes field block (lines 93-113). -/
def stashBlk (inp : ConfigGeneralInput) (env : Env) : MState → Step :=
  fun s =>
    match inp.stashes with
    | none => .go s
    | some l =>
      (checkStashes env (getStashPaths s.vals) l s).then fun s2 =>
        .go (applyKV kStash (.vstash l) s2)

/-- Database path block (lines 137-149): override check first, then the
file-extension whitelist. -/
def dbBlk (inp : ConfigGeneralInput) (env : Env) : MState → Step :=
  fun s =>
    match inp.databasePath with
    | none => .go s
    | some v =>
      if getString s.vals kDatabase = v then .go s
      else if env.hasOverride kDatabase then
        .halt s true (some (.overriddenConfig kDatabase))
      else if env.fileExt v = ".db" ∨ env.fileExt v = ".sqlite" ∨
          env.fileExt v = ".sqlite3" then
        .go (applyKV kDatabase (.vs v) s)
      else .halt s true (some .invalidDatabaseExt)

/-- The `validateDir`-guarded directory blocks (override check, then
ensure-directory unless optional and empty), with the per-key refresh-flag
update applied on success. -/
def validateDirBlk (env : Env) (v? : Option String) (k : String)
    (optional : Bool) (flagUpd : MState → MState) : MState → Step :=
  fun s =>
    match v? with
    | none => .go s
    | some v =>
      if getString s.vals k = v then .go s
      else if env.hasOverride k then
        .halt s true (some (.overriddenConfig k))
      else
        match (if !optional || v ≠ "" then env.ensureDir v else none) with
        | some e => .halt s true (some e)
        | none => .go (flagUpd (applyKV k (.vs v) s))

/-- Blobs storage selector block (lines 233-242): filesystem storage
requires a non-empty blobs path (reading the pending in-memory value). -/
def blobsStorageBlk (inp : ConfigGeneralInput) : MState → Step :=
  fun s =>
    match inp.blobsStorage with
    | none => .go s
    | some t =>
      if t = getBlobsStorage s.vals then .go s
      else if t = .filesystem ∧ getString s.vals kBlobsPath = "" then
        .halt s true (some .blobsPathRequired)
      else .go { applyKV kBlobsStorage (.vblob t) s with fBlobStorage := true }

/-- ffmpeg path block (lines 244-255). -/
def ffmpegBlk (inp : ConfigGeneralInput) (env : Env) : MState → Step :=
  fun s =>
    match inp.ffmpegPath with
    | none => .go s
    | some p =>
      if p = getString s.vals kFFMpegPath then .go s
      else
        match (if p ≠ "" then env.validateFFMpeg p else none) with
        | some m => .halt s true (some (.invalidFfmpeg m))
        | none => .go { applyKV kFFMpegPath (.vs p) s with fFfmpeg := true }

/-- ffprobe path block (lines 257-267). -/
def ffprobeBlk (inp : ConfigGeneralInput) (env : Env) : MState → Step :=
  fun s =>
    match inp.ffprobePath with
    | none => .go s
    | some p =>
      if p = getString s.vals kFFProbePath then .go s
      else
        match (if p ≠ "" then env.validateFFProbe p else none) with
        | some m => .halt s true (some (.invalidFfprobe m))
        | none => .go { applyKV kFFProbePath (.vs p) s with fFfmpeg := true }

/-- The `calculateMD5` local of the naming-algorithm check: the stored flag
overridden by the pending input value when present. -/
def effCalcMd5 (inp : ConfigGeneralInput) (s : MState) : Bool :=
  match inp.calculateMd5 with
  | some b => b
  | none => getBool s.vals kCalculateMD5

/-- Video file naming algorithm block (lines 269-287): the MD5 policy check
uses the pending `CalculateMd5` value from the same input when present. -/
def namingAlgBlk (inp : ConfigGeneralInput) (env : Env) : MState → Step :=
  fun s =>
    match inp.videoFileNamingAlgorithm with
    | none => .go s
    | some a =>
      if a = getHashAlg s.vals then .go s
      else
        if !(effCalcMd5 inp s) ∧ a = .md5 then .halt s true (some .md5Required)
        else
          match env.validateNamingAlg a with
          | some e => .halt s true (some e)
          | none => .go (applyKV kVideoFileNamingAlgorithm (.vhash a) s)

/-- Gallery cover regex block (lines 317-326). -/
def galleryCoverBlk (inp : ConfigGeneralInput) (env : Env) : MState → Step :=
  fun s =>
    match inp.galleryCoverRegex with
    | none => .go s
    | some r =>
      match env.regexCompile r with
      | some m => .halt s true (some (.invalidGalleryCoverRegex r m))
      | none => .go (applyKV kGalleryCoverRegex (.vs r) s)

/-- Username block (lines 328-336): note the unconditional dereference of
`input.Password` to pick the log message. -/
def usernameBlk (inp : ConfigGeneralInput) : MState → Step :=
  fun s =>
    match inp.username with
    | none => .go s
    | some u =>
      if u = getString s.vals kUsername then .go s
      else
        match inp.password with
        | none => .panicked (applyKV kUsername (.vs u) s)
        | some pw =>
          .go (addEvent
            (.logInfo (if pw = "" then "Username cleared" else "Username changed"))
            (applyKV kUsername (.vs u) s))

/-- Password block (lines 338-353): compares the plaintext input against the
stored hash to skip no-op updates; the store receives the hash, the change
set receives the plaintext. -/
def passwordBlk (inp : ConfigGeneralInput) (env : Env) : MState → Step :=
  fun s =>
    match inp.password with
    | none => .go s
    | some pw =>
      if pw = getString s.vals kPassword then .go s
      else
        .go (recordLocal kPassword (.vs pw)
          (storeSet kPassword (.vs (env.hashPassword pw))
            (addEvent
              (.logInfo (if pw = "" then "Password cleared" else "Password changed")) s)))

/-- Log level block (lines 360-365). -/
def logLevelBlk (inp : ConfigGeneralInput) : MState → Step :=
  fun s =>
    match inp.logLevel with
    | none => .go s
    | some l =>
      if l = getString s.vals kLogLevel then .go s
      else .go (addEvent (.setLogLevelCalled l) (applyKV kLogLevel (.vs l) s))

/-- Video exclusion patterns block (lines 367-377). -/
def excludesBlk (inp : ConfigGeneralInput) (env : Env) : MState → Step :=
  fun s =>
    match inp.excludes with
    | none => .go s
    | some l =>
      match firstBad env l with
      | some pm => .halt s true (some (.invalidVideoExclude pm.1 pm.2))
      | none => .go (applyKV kExclude (.vls l) s)

/-- Image/gallery exclusion patterns block (lines 379-389). -/
def imageExcludesBlk (inp : ConfigGeneralInput) (env : Env) : MState → Step :=
  fun s =>
    match inp.imageExcludes with
    | none => .go s
    | some l =>
      match firstBad env l with
      | some pm => .halt s true (some (.invalidImageExclude pm.1 pm.2))
      | none => .go (applyKV kImageExclude (.vls l) s)

/-- Custom performer image location block (lines 411-414): the store setter
is called but the change set is NOT updated. -/
def customPerformerBlk (inp : ConfigGeneralInput) : MState → Step :=
  fun s =>
    match inp.customPerformerImageLocation with
    | none => .go s
    | some loc =>
      .go (addEvent (.initCustomPerformerImages loc)
        (storeSet kCustomPerformerImageLocation (.vs loc) s))

/-- Stash boxes block (lines 416-422): on validation failure the resolver
returns a nil result record alongside the error. -/
def stashBoxesBlk (inp : ConfigGeneralInput) (env : Env) : MState → Step :=
  fun s =>
    match inp.stashBoxes with
    | none => .go s
    | some bs =>
      match env.validateStashBoxes bs with
      | some e => .halt s false (some e)
      | none => .go (applyKV kStashBoxes (.vboxes bs) s)

/-- Set both scraper refresh flags (scrapers path change). -/
def withScraperFlags (s : MState) : MState :=
  { s with fScraperCache := true, fScraperSource := true }

/-- Set both plugin refresh flags (plugins path change). -/
def withPluginFlags (s : MState) : MState :=
  { s with fPluginCache := true, fPluginSource := true }

/-- Set the stream-manager refresh flag (cache path change). -/
def withStreamFlag (s : MState) : MState :=
  { s with fStreamManager := true }

/-- Set the blob-storage refresh flag (blobs path change). -/
def withBlobFlag (s : MState) : MState :=
  { s with fBlobStorage := true }

/-- Set the scraper-source refresh flag (package sources change). -/
def withScraperSourceFlag (s : MState) : MState :=
  { s with fScraperSource := true }

/-- Set the plugin-source refresh flag (package sources change). -/
def withPluginSourceFlag (s : MState) : MState :=
  { s with fPluginSource := true }

/-- Scraper package sources block (lines 451-456). -/
def scraperPkgBlk (inp : ConfigGeneralInput) : MState → Step :=
  pureBlk fun s =>
    match inp.scraperPackageSources with
    | some l => withScraperSourceFlag (applyKV kScraperPackageSources (.vls l) s)
    | none => s

/-- Plugin package sources block (lines 458-463). -/
def pluginPkgBlk (inp : ConfigGeneralInput) : MState → Step :=
  pureBlk fun s =>
    match inp.pluginPackageSources with
    | some l => withPluginSourceFlag (applyKV kPluginPackageSources (.vls l) s)
    | none => s

/-- The ordered field-processing blocks of `ConfigureGeneral`
(lines 93-463), in source order. -/
def generalBlocks (inp : ConfigGeneralInput) (env : Env) :
    List (MState → Step) :=
  [ stashBlk inp env
  , dbBlk inp env
  , validateDirBlk env inp.backupDirectoryPath kBackupDirectoryPath true id
  , validateDirBlk env inp.generatedPath kGenerated false id
  , validateDirBlk env inp.scrapersPath kScrapersPath false withScraperFlags
  , validateDirBlk env inp.pluginsPath kPluginsPath false withPluginFlags
  , validateDirBlk env inp.metadataPath kMetadata true id
  , validateDirBlk env inp.cachePath kCache true withStreamFlag
  , validateDirBlk env inp.blobsPath kBlobsPath true withBlobFlag
  , blobsStorageBlk inp
  , ffmpegBlk inp env
  , ffprobeBlk inp env
  , namingAlgBlk inp env
  , pureBlk (applyOpt inp.calculateMd5 kCalculateMD5 .vb)
  , pureBlk (applyOpt inp.parallelTasks kParallelTasks .vi)
  , pureBlk (applyOpt inp.previewAudio kPreviewAudio .vb)
  , pureBlk (applyOpt inp.previewSegments kPreviewSegments .vi)
  , pureBlk (applyOpt inp.previewSegmentDuration kPreviewSegmentDuration .vf)
  , pureBlk (applyOpt inp.previewExcludeStart kPreviewExcludeStart .vs)
  , pureBlk (applyOpt inp.previewExcludeEnd kPreviewExcludeEnd .vs)
  , pureBlk (applyOpt inp.previewPreset kPreviewPreset .vs)
  , pureBlk (applyOpt inp.transcodeHardwareAcceleration kTranscodeHardwareAcceleration .vb)
  , pureBlk (applyOpt inp.maxTranscodeSize kMaxTranscodeSize .vs)
  , pureBlk (applyOpt inp.maxStreamingTranscodeSize kMaxStreamingTranscodeSize .vs)
  , pureBlk (applyOpt inp.writeImageThumbnails kWriteImageThumbnails .vb)
  , pureBlk (applyOpt inp.createImageClipsFromVideos kCreateImageClipsFromVideos .vb)
  , galleryCoverBlk inp env
  , usernameBlk inp
  , passwordBlk inp env
  , pureBlk (applyOpt inp.maxSessionAge kMaxSessionAge .vi)
  , pureBlk (applyOpt inp.logFile kLogFile .vs)
  , pureBlk (applyOpt inp.logOut kLogOut .vb)
  , pureBlk (applyOpt inp.logAccess kLogAccess .vb)
  , logLevelBlk inp
  , excludesBlk inp env
  , imageExcludesBlk inp env
  , pureBlk (applyOpt inp.videoExtensions kVideoExtensions .vls)
  , pureBlk (applyOpt inp.imageExtensions kImageExtensions .vls)
  , pureBlk (applyOpt inp.galleryExtensions kGalleryExtensions .vls)
  , pureBlk (applyOpt inp.createGalleriesFromFolders kCreateGalleriesFromFolders .vb)
  , customPerformerBlk inp
  , stashBoxesBlk inp env
  , pureBlk (applyOpt inp.pythonPath kPythonPath .vs)
  , pureBlk (applyOpt inp.transcodeInputArgs kTranscodeInputArgs .vls)
  , pureBlk (applyOpt inp.transcodeOutputArgs kTranscodeOutputArgs .vls)
  , pureBlk (applyOpt inp.liveTranscodeInputArgs kLiveTranscodeInputArgs .vls)
  , pureBlk (applyOpt inp.liveTranscodeOutputArgs kLiveTranscodeOutputArgs .vls)
  , pureBlk (applyOpt inp.drawFunscriptHeatmapRange kDrawFunscriptHeatmapRange .vb)
  , scraperPkgBlk inp
  , pluginPkgBlk inp ]

/-- Commit and refresh stage of `ConfigureGeneral` (lines 465-501): on
write failure return the change-set payload (tolerant mode) or the raw
error; on success fire the flagged refresh hooks in dependency order (an
ffmpeg change forces a stream-manager refresh). -/
def generalWriteStage (env : Env) (s : MState) : GOut :=
  let s1 := addEvent .writeCalled s
  match env.writeResult with
  | some e =>
    if env.allowReadOnly then
      ⟨s1, true, some (.readOnlyPayload s1.localConfig), false⟩
    else ⟨s1, true, some e, false⟩
  | none =>
    let s2 := addEvent .refreshConfig s1
    let s3 := if s2.fScraperCache then addEvent .refreshScraperCache s2 else s2
    let s4 := if s3.fPluginCache then addEvent .refreshPluginCache s3 else s3
    let s5 := if s4.fFfmpeg then addEvent .refreshFFMpeg s4 else s4
    let s6 := if s5.fStreamManager || s5.fFfmpeg then
        addEvent .refreshStreamManager s5 else s5
    let s7 := if s6.fBlobStorage then addEvent .setBlobStoreOptions s6 else s6
    let s8 := if s7.fScraperSource then
        addEvent .refreshScraperSourceManager s7 else s7
    let s9 := if s8.fPluginSource then
        addEvent .refreshPluginSourceManager s8 else s8
    ⟨s9, true, none, false⟩

/-- `ConfigureGeneral` (lines 89-502). -/
def configureGeneral (inp : ConfigGeneralInput) (env : Env)
    (vals : String → CValue) : GOut :=
  match runBlocks (generalBlocks inp env) (mkState vals) with
  | .go s => generalWriteStage env s
  | .halt s r e => ⟨s, r, e, false⟩
  | .panicked s => ⟨s, false, none, true⟩

/-- The shared commit tail (`c.Write()` + the tolerant read-only payload
downgrade) used by every handler other than `ConfigureGeneral`. -/
def writeTail (env : Env) (s : MState) : MState × Option ConfigError :=
  let s1 := addEvent .writeCalled s
  match env.writeResult with
  | some e =>
    if env.allowReadOnly then (s1, some (.readOnlyPayload s1.localConfig))
    else (s1, some e)
  | none => (s1, none)

/-- Image lightbox sub-record of the interface input. -/
structure LightboxInput where
  slideshowDelay : Option Int := none
  displayMode : Option String := none
  scaleUp : Option Bool := none
  resetZoomOnNav : Option Bool := none
  scrollMode : Option String := none
  scrollAttemptsBeforeChange : Option Int := none

/-- Dropdown-create sub-record of the interface input. -/
structure DisableDropdownCreateInput where
  performer : Option Bool := none
  studio : Option Bool := none
  tag : Option Bool := none
  movie : Option Bool := none

/-- The partial update record of `ConfigureInterface`. -/
structure ConfigInterfaceInput where
  menuItems : Option (List String) := none
  soundOnPreview : Option Bool := none
  wallShowTitle : Option Bool := none
  noBrowser : Option Bool := none
  notificationsEnabled : Option Bool := none
  showScrubber : Option Bool := none
  wallPlayback : Option String := none
  maximumLoopDuration : Option Int := none
  autostartVideo : Option Bool := none
  showStudioAsText : Option Bool := none
  autostartVideoOnPlaySelected : Option Bool := none
  continuePlaylistDefault : Option Bool := none
  language : Option String := none
  imageLightbox : Option LightboxInput := none
  css : Option String := none
  cssEnabled : Option Bool := none
  javascript : Option String := none
  javascriptEnabled : Option Bool := none
  customLocales : Option String := none
  customLocalesEnabled : Option Bool := none
  disableDropdownCreate : Option DisableDropdownCreateInput := none
  handyKey : Option String := none
  funscriptOffset : Option Int := none
  useStashHostedFunscript : Option Bool := none

/-- `ConfigureInterface` (lines 504-585).  The CSS / Javascript / custom
locales setters write files through the store without recording into the
change set. -/
def configureInterface (inp : ConfigInterfaceInput) (env : Env)
    (vals : String → CValue) : GOut :=
  let s := mkState vals
  let s := applyOpt inp.menuItems kMenuItems .vls s
  let s := applyOpt inp.soundOnPreview kSoundOnPreview .vb s
  let s := applyOpt inp.wallShowTitle kWallShowTitle .vb s
  let s := applyOpt inp.noBrowser kNoBrowser .vb s
  let s := applyOpt inp.notificationsEnabled kNotificationsEnabled .vb s
  let s := applyOpt inp.showScrubber kShowScrubber .vb s
  let s := applyOpt inp.wallPlayback kWallPlayback .vs s
  let s := applyOpt inp.maximumLoopDuration kMaximumLoopDuration .vi s
  let s := applyOpt inp.autostartVideo kAutostartVideo .vb s
  let s := applyOpt inp.showStudioAsText kShowStudioAsText .vb s
  let s := applyOpt inp.autostartVideoOnPlaySelected kAutostartVideoOnPlaySelected .vb s
  let s := applyOpt inp.continuePlaylistDefault kContinuePlaylistDefault .vb s
  let s := applyOpt inp.language kLanguage .vs s
  let s := match inp.imageLightbox with
    | some options =>
      let s := applyOpt options.slideshowDelay kImageLightboxSlideshowDelay .vi s
      let s := applyOpt options.displayMode kImageLightboxDisplayMode .vs s
      let s := applyOpt options.scaleUp kImageLightboxScaleUp .vb s
      let s := applyOpt options.resetZoomOnNav kImageLightboxResetZoomOnNav .vb s
      let s := applyOpt options.scrollMode kImageLightboxScrollMode .vs s
      applyOpt options.scrollAttemptsBeforeChange kImageLightboxScrollAttemptsBeforeChange .vi s
    | none => s
  let s := match inp.css with
    | some v => storeSet kCSS (.vs v) s
    | none => s
  let s := applyOpt inp.cssEnabled kCSSEnabled .vb s
  let s := match inp.javascript with
    | some v => storeSet kJavascript (.vs v) s
    | none => s
  let s := applyOpt inp.javascriptEnabled kJavascriptEnabled .vb s
  let s := match inp.customLocales with
    | some v => storeSet kCustomLocales (.vs v) s
    | none => s
  let s := applyOpt inp.customLocalesEnabled kCustomLocalesEnabled .vb s
  let s := match inp.disableDropdownCreate with
    | some ddc =>
      let s := applyOpt ddc.performer kDisableDropdownCreatePerformer .vb s
      let s := applyOpt ddc.studio kDisableDropdownCreateStudio .vb s
      let s := applyOpt ddc.tag kDisableDropdownCreateTag .vb s
      applyOpt ddc.movie kDisableDropdownCreateMovie .vb s
    | none => s
  let s := applyOpt inp.handyKey kHandyKey .vs s
  let s := applyOpt inp.funscriptOffset kFunscriptOffset .vi s
  let s := applyOpt inp.useStashHostedFunscript kUseStashHostedFunscript .vb s
  let se := writeTail env s
  ⟨se.1, true, se.2, false⟩

/-- The partial update record of `ConfigureDlna`. -/
structure ConfigDLNAInput where
  serverName : Option String := none
  whitelistedIPs : Option (List String) := none
  videoSortOrder : Option String := none
  port : Option Int := none
  enabled : Option Bool := none
  interfaces : Option (List String) := none

/-- `ConfigureDlna` (lines 587-628): the DLNA refresh fires only after a
successful write, and only when the enabled flag was present. -/
def configureDlna (inp : ConfigDLNAInput) (env : Env)
    (vals : String → CValue) : GOut :=
  let s := mkState vals
  let s := applyOpt inp.serverName kDLNAServerName .vs s
  let s := applyOpt inp.whitelistedIPs kDLNADefaultIPWhitelist .vls s
  let s := applyOpt inp.videoSortOrder kDLNAVideoSortOrder .vs s
  let s := applyOpt inp.port kDLNAPort .vi s
  let refresh := inp.enabled.isSome
  let s := applyOpt inp.enabled kDLNADefaultEnabled .vb s
  let s := applyOpt inp.interfaces kDLNAInterfaces .vls s
  let se := writeTail env s
  match se.2 with
  | some e => ⟨se.1, true, some e, false⟩
  | none =>
    ⟨if refresh then addEvent .refreshDLNA se.1 else se.1, true, none, false⟩

/-- The partial update record of `ConfigureScraping`. -/
structure ConfigScrapingInput where
  scraperUserAgent : Option String := none
  scraperCDPPath : Option String := none
  excludeTagPatterns : Option (List String) := none
  scraperCertCheck : Option Bool := none

/-- Field processing of `ConfigureScraping` (lines 634-658). -/
def scrapingFields (inp : ConfigScrapingInput) (env : Env) (s : MState) :
    Step :=
  let s := match inp.scraperUserAgent with
    | some v => { applyKV kScraperUserAgent (.vs v) s with fScraperCache := true }
    | none => s
  let s := match inp.scraperCDPPath with
    | some v => { applyKV kScraperCDPPath (.vs v) s with fScraperCache := true }
    | none => s
  match inp.excludeTagPatterns with
  | some l =>
    (match firstBad env l with
     | some pm => .halt s true (some (.invalidTagExclude pm.1 pm.2))
     | none =>
       .go (applyOpt inp.scraperCertCheck kScraperCertCheck .vb
         (applyKV kScraperExcludeTagPatterns (.vls l) s)))
  | none => .go (applyOpt inp.scraperCertCheck kScraperCertCheck .vb s)

/-- Commit tail of `ConfigureScraping` (lines 660-673): note that the
scraper-cache refresh fires BEFORE `c.Write()` is attempted. -/
def scrapingTail (env : Env) (s : MState) : GOut :=
  let s := if s.fScraperCache then addEvent .refreshScraperCache s else s
  let se := writeTail env s
  ⟨se.1, true, se.2, false⟩

/-- `ConfigureScraping` (lines 630-674). -/
def configureScraping (inp : ConfigScrapingInput) (env : Env)
    (vals : String → CValue) : GOut :=
  match scrapingFields inp env (mkState vals) with
  | .go s => scrapingTail env s
  | .halt s r e => ⟨s, r, e, false⟩
  | .panicked s => ⟨s, false, none, true⟩

/-- Scan sub-record of the defaults input (only `ScanMetadataOptions` is
persisted). -/
structure ScanDefaultsInput where
  scanMetadataOptions : JSONBlob

/-- The partial update record of `ConfigureDefaults`. -/
structure ConfigDefaultSettingsInput where
  identify : Option JSONBlob := none
  scan : Option ScanDefaultsInput := none
  autoTag : Option JSONBlob := none
  generate : Option JSONBlob := none
  deleteFile : Option Bool := none
  deleteGenerated : Option Bool := none

/-- `ConfigureDefaults` (lines 676-716). -/
def configureDefaults (inp : ConfigDefaultSettingsInput) (env : Env)
    (vals : String → CValue) : GOut :=
  let s := mkState vals
  let s := applyOpt inp.identify kDefaultIdentifySettings .vjs s
  let s := match inp.scan with
    | some sc => applyKV kDefaultScanSettings (.vjs sc.scanMetadataOptions) s
    | none => s
  let s := applyOpt inp.autoTag kDefaultAutoTagSettings .vjs s
  let s := applyOpt inp.generate kDefaultGenerateSettings .vjs s
  let s := applyOpt inp.deleteFile kDeleteFileDefault .vb s
  let s := applyOpt inp.deleteGenerated kDeleteGeneratedDefault .vb s
  let se := writeTail env s
  ⟨se.1, true, se.2, false⟩

/-- The input record of `GenerateAPIKey`. -/
structure GenerateAPIKeyInput where
  clear : Option Bool := none

/-- Outcome of `GenerateAPIKey`: final state, the returned key string (Go
returns a plain string, never null) and the returned error. -/
structure KeyOut where
  state : MState
  key : String
  err : Option ConfigError

/-- `GenerateAPIKey` (lines 718-748): a new key is generated only when the
clear flag is unset/false and the stored username is non-empty; otherwise
the empty key is stored. -/
def generateAPIKeyRun (inp : GenerateAPIKeyInput) (env : Env)
    (vals : String → CValue) : KeyOut :=
  let s := mkState vals
  let gen : Except ConfigError String :=
    if inp.clear.getD false then .ok ""
    else
      let u := getString vals kUsername
      if u ≠ "" then env.generateKey u else .ok ""
  match gen with
  | .error e => ⟨s, "", some e⟩
  | .ok k =>
    let s := recordLocal kApiKey (.vs k) (storeSet kApiKey (.vs k) s)
    let se := writeTail env s
    ⟨se.1, k, se.2⟩

/-- Outcome of the UI / plugin configuration handlers: final state, the
returned configuration map and the returned error. -/
structure MapOut where
  state : MState
  result : UIMap
  err : Option ConfigError

/-- `ConfigureUI` (lines 750-777): full replace records the change set; the
recursive merge of a given record into the existing configuration writes
the store but records nothing. -/
def configureUI (inputM : Option UIMap) (given : Option UIMap) (env : Env)
    (vals : String → CValue) : MapOut :=
  let s := mkState vals
  let s := match inputM with
    | some m => recordLocal kUI (.vui m) (storeSet kUI (.vui m) s)
    | none => s
  let s := match given with
    | some p => storeSet kUI (.vui (env.mergeMaps (getUIConfig s.vals) p)) s
    | none => s
  let se := writeTail env s
  ⟨se.1, getUIConfig se.1.vals, se.2⟩

/-- `ConfigureUISetting` (lines 779-788): sets one key in a nested copy of
the UI configuration and delegates to `configureUI` (the local change set
built here is dead code in the source). -/
def configureUISetting (key : String) (value : String) (env : Env)
    (vals : String → CValue) : MapOut :=
  configureUI (some (env.nestedSet (getUIConfig vals) key value)) none env vals

/-- `GetPluginConfiguration`. -/
def getPluginConfig (vals : String → CValue) (pluginID : String) : UIMap :=
  match vals ("plugins." ++ pluginID) with
  | .vui m => m
  | _ => ⟨[]⟩

/-- `ConfigurePlugin` (lines 790-807). -/
def configurePlugin (pluginID : String) (inputM : UIMap) (env : Env)
    (vals : String → CValue) : MapOut :=
  let s := mkState vals
  let s := recordLocal pluginID (.vui inputM)
    (storeSet ("plugins." ++ pluginID) (.vui inputM) s)
  let se := writeTail env s
  ⟨se.1, getPluginConfig se.1.vals pluginID, se.2⟩

/- Concrete fixtures used by witnesses and counterexamples. -/

/-- A store in which every key holds the empty string. -/
def valsW : String → CValue := fun _ => .vs ""

/-- A benign environment: no overrides, all probes succeed, the durable
write succeeds. -/
def envW : Env where
  hasOverride := fun _ => false
  dirExists := fun _ => (true, none)
  ensureDir := fun _ => none
  fileExt := fun _ => ".db"
  validateFFMpeg := fun _ => none
  validateFFProbe := fun _ => none
  validateNamingAlg := fun _ => none
  validateStashBoxes := fun _ => none
  regexCompile := fun _ => none
  hashPassword := fun p => p ++ "#hash"
  mergeMaps := fun a b => ⟨a.raw ++ b.raw⟩
  nestedSet := fun m k v => ⟨m.raw ++ [(k, v)]⟩
  generateKey := fun u => .ok ("key-" ++ u)
  writeResult := none
  allowReadOnly := false

/-- Input carrying one stash-box entry. -/
def inC1 : ConfigGeneralInput := { stashBoxes := some [⟨"ep", "key", "box"⟩] }

/-- Environment in which stash-box validation fails. -/
def envC1 : Env := { envW with validateStashBoxes := fun _ => some (.ext "bad") }

/-- Input setting a username while leaving the password field absent. -/
def inC2 : ConfigGeneralInput := { username := some "admin" }

/-- Input setting only the custom performer image location. -/
def inC4 : ConfigGeneralInput := { customPerformerImageLocation := some "/p" }

/-- Environment in which the durable write fails and the store tolerates a
read-only config file. -/
def envC4 : Env := { envW with writeResult := some (.ext "rofail"), allowReadOnly := true }

/-- Scraping input setting only the scraper user agent. -/
def inC5 : ConfigScrapingInput := { scraperUserAgent := some "ua" }

/-- Environment in which the durable write fails hard. -/
def envC5 : Env := { envW with writeResult := some (.ext "rofail") }

/-- Environment in which exactly the backup directory key is overridden. -/
def envC3 : Env := { envW with hasOverride := fun k => k == kBackupDirectoryPath }

/-- An early return carries a non-null result record. -/
def Step.resTrue : Step → Prop
  | .halt _ r _ => r = true
  | _ => True

/-- An early return carries a non-null result record unless it is the
stash-box validation failure of the given input. -/
def Step.resOk (inp : ConfigGeneralInput) (env : Env) : Step → Prop
  | .halt _ r e => r = true ∨
      ∃ bs m, inp.stashBoxes = some bs ∧ env.validateStashBoxes bs = some m ∧
        e = some m
  | _ => True

/-- No subsystem refresh hook has been invoked yet. -/
def noRefreshEvents (s : MState) : Prop :=
  ∀ ev ∈ s.events, ev.isRefresh = false

/-- A step outcome that is not a panic. -/
def Step.noPanic : Step → Prop
  | .panicked _ => False
  | _ => True

/-- Environment in which the pattern "(" fails to compile and everything
else succeeds. -/
def envC7 : Env :=
  { envW with regexCompile := fun p => if p = "(" then some "missing closing )" else none }

/-- Input introducing one new stash path. -/
def inC10 : ConfigGeneralInput := { stashes := some [⟨"/new", false, false⟩] }

/-- Environment in which no directory exists. -/
def envC10 : Env :=
  { envW with dirExists := fun p => (false, some (.ext ("does not exist: " ++ p))) }

end Stash

namespace Stash

/- Basic reduction lemmas. -/

theorem runBlocks_nil (s : MState) : runBlocks [] s = .go s := rfl

theorem runBlocks_cons (b : MState → Step) (bs : List (MState → Step))
    (s : MState) : runBlocks (b :: bs) s = (b s).then (runBlocks bs) := rfl

theorem then_go (s : MState) (f : MState → Step) :
    Step.then (.go s) f = f s := rfl

theorem then_halt (s : MState) (r : Bool) (e : Option ConfigError)
    (f : MState → Step) : Step.then (.halt s r e) f = .halt s r e := rfl

theorem then_panicked (s : MState) (f : MState → Step) :
    Step.then (.panicked s) f = .panicked s := rfl

theorem applyOpt_none {α : Type} (k : String) (enc : α → CValue) (s : MState) :
    applyOpt (none : Option α) k enc s = s := rfl

theorem applyOpt_events {α : Type} (v? : Option α) (k : String)
    (enc : α → CValue) (s : MState) : (applyOpt v? k enc s).events = s.events := by
  cases v? <;> rfl

theorem applyOpt_writeLog_none {α : Type} (k : String) (enc : α → CValue)
    (s : MState) : (applyOpt (none : Option α) k enc s).writeLog = s.writeLog := rfl

/- Generic runBlocks lemmas. -/

theorem runBlocks_pred (P : Step → Prop) (hgo : ∀ s, P (.go s)) :
    ∀ blocks : List (MState → Step), (∀ b ∈ blocks, ∀ s, P (b s)) →
    ∀ s, P (runBlocks blocks s) := by
  intro blocks
  induction blocks with
  | nil => intro _ s; exact hgo s
  | cons b bs ih =>
    intro hb s
    rw [runBlocks_cons]
    cases hbs : b s with
    | go s3 => rw [then_go]; exact ih (fun b' m => hb b' (List.mem_cons_of_mem _ m)) s3
    | halt s3 r3 e3 =>
      rw [then_halt]
      have := hb b (List.mem_cons_self _ _) s
      rwa [hbs] at this
    | panicked s3 =>
      rw [then_panicked]
      have := hb b (List.mem_cons_self _ _) s
      rwa [hbs] at this

theorem runBlocks_inv (I : MState → Prop) (blocks : List (MState → Step))
    (hb : ∀ b ∈ blocks, ∀ s, I s → I (b s).state) :
    ∀ s, I s → I (runBlocks blocks s).state := by
  induction blocks with
  | nil => intro s hs; exact hs
  | cons b bs ih =>
    intro s hs
    rw [runBlocks_cons]
    cases hbs : b s with
    | go s3 =>
      rw [then_go]
      have h3 := hb b (List.mem_cons_self _ _) s hs
      rw [hbs] at h3
      exact ih (fun b' m => hb b' (List.mem_cons_of_mem _ m)) s3 h3
    | halt s3 r3 e3 =>
      rw [then_halt]
      have h3 := hb b (List.mem_cons_self _ _) s hs
      rwa [hbs] at h3
    | panicked s3 =>
      rw [then_panicked]
      have h3 := hb b (List.mem_cons_self _ _) s hs
      rwa [hbs] at h3

/- noRefreshEvents preservation helpers. -/

theorem noRefresh_of_events_eq {s s2 : MState} (h : noRefreshEvents s)
    (he : s2.events = s.events) : noRefreshEvents s2 := by
  intro ev hev
  rw [he] at hev
  exact h ev hev

theorem noRefresh_addEvent {s : MState} {x : Event} (h : noRefreshEvents s)
    (hx : x.isRefresh = false) : noRefreshEvents (addEvent x s) := by
  intro ev hev
  simp only [addEvent, List.mem_append, List.mem_singleton] at hev
  rcases hev with h1 | rfl
  · exact h ev h1
  · exact hx

theorem mem_ite_addEvent {ev : Event} {s : MState} (c : Prop) [Decidable c]
    (x : Event) (h : ev ∈ s.events) :
    ev ∈ (if c then addEvent x s else s).events := by
  split
  · simp only [addEvent, List.mem_append]; exact Or.inl h
  · exact h

/- Per-block lemmas: early returns carry a non-null result, and blocks never
invoke refresh hooks. -/

theorem checkStashes_resTrue (env : Env) (ex : List StashInput) :
    ∀ l s, (checkStashes env ex l s).resTrue := by
  intro l
  induction l with
  | nil => intro s; trivial
  | cons st rest ih =>
    intro s
    unfold checkStashes
    split
    · exact ih s
    · dsimp only
      split
      · exact ih _
      · exact rfl

theorem checkStashes_inv (env : Env) (ex : List StashInput) :
    ∀ l s, noRefreshEvents s → noRefreshEvents (checkStashes env ex l s).state := by
  intro l
  induction l with
  | nil => intro s hs; exact hs
  | cons st rest ih =>
    intro s hs
    unfold checkStashes
    split
    · exact ih s hs
    · dsimp only
      split
      · exact ih _ (noRefresh_addEvent hs rfl)
      · exact noRefresh_addEvent hs rfl

theorem stashBlk_resOk (inp : ConfigGeneralInput) (env : Env) (s : MState) :
    (stashBlk inp env s).resOk inp env := by
  unfold stashBlk
  split
  · trivial
  · rename_i l _
    cases hc : checkStashes env (getStashPaths s.vals) l s with
    | go s3 => rw [then_go]; trivial
    | halt s3 r3 e3 =>
      rw [then_halt]
      have := checkStashes_resTrue env (getStashPaths s.vals) l s
      rw [hc] at this
      exact Or.inl this
    | panicked s3 => rw [then_panicked]; trivial

theorem stashBlk_inv (inp : ConfigGeneralInput) (env : Env) (s : MState)
    (hs : noRefreshEvents s) : noRefreshEvents (stashBlk inp env s).state := by
  unfold stashBlk
  split
  · exact hs
  · rename_i l _
    have hck := checkStashes_inv env (getStashPaths s.vals) l s hs
    cases hc : checkStashes env (getStashPaths s.vals) l s with
    | go s3 =>
      rw [then_go]
      rw [hc] at hck
      exact noRefresh_of_events_eq hck rfl
    | halt s3 r3 e3 => rw [then_halt]; rwa [hc] at hck
    | panicked s3 => rw [then_panicked]; rwa [hc] at hck

theorem dbBlk_resOk (inp : ConfigGeneralInput) (env : Env) (s : MState) :
    (dbBlk inp env s).resOk inp env := by
  unfold dbBlk
  repeat' split
  all_goals first | trivial | exact Or.inl rfl

theorem dbBlk_inv (inp : ConfigGeneralInput) (env : Env) (s : MState)
    (hs : noRefreshEvents s) : noRefreshEvents (dbBlk inp env s).state := by
  unfold dbBlk
  repeat' split
  all_goals exact noRefresh_of_events_eq hs rfl

theorem validateDirBlk_resOk (inp : ConfigGeneralInput) (env : Env)
    (v? : Option String) (k : String) (optional : Bool)
    (flagUpd : MState → MState) (s : MState) :
    (validateDirBlk env v? k optional flagUpd s).resOk inp env := by
  unfold validateDirBlk
  repeat' split
  all_goals first | trivial | exact Or.inl rfl

theorem validateDirBlk_inv (env : Env) (v? : Option String) (k : String)
    (optional : Bool) (flagUpd : MState → MState)
    (hflag : ∀ s, (flagUpd s).events = s.events) (s : MState)
    (hs : noRefreshEvents s) :
    noRefreshEvents (validateDirBlk env v? k optional flagUpd s).state := by
  unfold validateDirBlk
  repeat' split
  all_goals exact noRefresh_of_events_eq hs (by first | (rw [Step.state, hflag]; rfl) | rfl)

theorem blobsStorageBlk_resOk (inp : ConfigGeneralInput) (env : Env)
    (s : MState) : (blobsStorageBlk inp s).resOk inp env := by
  unfold blobsStorageBlk
  repeat' split
  all_goals first | trivial | exact Or.inl rfl

theorem blobsStorageBlk_inv (inp : ConfigGeneralInput) (s : MState)
    (hs : noRefreshEvents s) : noRefreshEvents (blobsStorageBlk inp s).state := by
  unfold blobsStorageBlk
  repeat' split
  all_goals exact noRefresh_of_events_eq hs rfl

theorem ffmpegBlk_resOk (inp : ConfigGeneralInput) (env : Env) (s : MState) :
    (ffmpegBlk inp env s).resOk inp env := by
  unfold ffmpegBlk
  repeat' split
  all_goals first | trivial | exact Or.inl rfl

theorem ffmpegBlk_inv (inp : ConfigGeneralInput) (env : Env) (s : MState)
    (hs : noRefreshEvents s) : noRefreshEvents (ffmpegBlk inp env s).state := by
  unfold ffmpegBlk
  repeat' split
  all_goals exact noRefresh_of_events_eq hs rfl

theorem ffprobeBlk_resOk (inp : ConfigGeneralInput) (env : Env) (s : MState) :
    (ffprobeBlk inp env s).resOk inp env := by
  unfold ffprobeBlk
  repeat' split
  all_goals first | trivial | exact Or.inl rfl

theorem ffprobeBlk_inv (inp : ConfigGeneralInput) (env : Env) (s : MState)
    (hs : noRefreshEvents s) : noRefreshEvents (ffprobeBlk inp env s).state := by
  unfold ffprobeBlk
  repeat' split
  all_goals exact noRefresh_of_events_eq hs rfl

theorem namingAlgBlk_resOk (inp : ConfigGeneralInput) (env : Env) (s : MState) :
    (namingAlgBlk inp env s).resOk inp env := by
  unfold namingAlgBlk
  repeat' split
  all_goals first | trivial | exact Or.inl rfl

theorem namingAlgBlk_inv (inp : ConfigGeneralInput) (env : Env) (s : MState)
    (hs : noRefreshEvents s) : noRefreshEvents (namingAlgBlk inp env s).state := by
  unfold namingAlgBlk
  repeat' split
  all_goals exact noRefresh_of_events_eq hs rfl

theorem galleryCoverBlk_resOk (inp : ConfigGeneralInput) (env : Env)
    (s : MState) : (galleryCoverBlk inp env s).resOk inp env := by
  unfold galleryCoverBlk
  repeat' split
  all_goals first | trivial | exact Or.inl rfl

theorem galleryCoverBlk_inv (inp : ConfigGeneralInput) (env : Env) (s : MState)
    (hs : noRefreshEvents s) :
    noRefreshEvents (galleryCoverBlk inp env s).state := by
  unfold galleryCoverBlk
  repeat' split
  all_goals exact noRefresh_of_events_eq hs rfl

theorem usernameBlk_resOk (inp : ConfigGeneralInput) (env : Env) (s : MState) :
    (usernameBlk inp s).resOk inp env := by
  unfold usernameBlk
  repeat' split
  all_goals first | trivial | exact Or.inl rfl

theorem usernameBlk_inv (inp : ConfigGeneralInput) (s : MState)
    (hs : noRefreshEvents s) : noRefreshEvents (usernameBlk inp s).state := by
  unfold usernameBlk
  repeat' split
  all_goals
    first
      | exact noRefresh_of_events_eq hs rfl
      | exact noRefresh_addEvent (noRefresh_of_events_eq hs rfl) rfl

theorem passwordBlk_resOk (inp : ConfigGeneralInput) (env : Env) (s : MState) :
    (passwordBlk inp env s).resOk inp env := by
  unfold passwordBlk
  repeat' split
  all_goals first | trivial | exact Or.inl rfl

theorem passwordBlk_inv (inp : ConfigGeneralInput) (env : Env) (s : MState)
    (hs : noRefreshEvents s) : noRefreshEvents (passwordBlk inp env s).state := by
  unfold passwordBlk
  repeat' split
  all_goals
    first
      | exact noRefresh_of_events_eq hs rfl
      | exact noRefresh_addEvent (noRefresh_of_events_eq hs rfl) rfl

theorem logLevelBlk_resOk (inp : ConfigGeneralInput) (env : Env) (s : MState) :
    (logLevelBlk inp s).resOk inp env := by
  unfold logLevelBlk
  repeat' split
  all_goals first | trivial | exact Or.inl rfl

theorem logLevelBlk_inv (inp : ConfigGeneralInput) (s : MState)
    (hs : noRefreshEvents s) : noRefreshEvents (logLevelBlk inp s).state := by
  unfold logLevelBlk
  repeat' split
  all_goals
    first
      | exact noRefresh_of_events_eq hs rfl
      | exact noRefresh_addEvent (noRefresh_of_events_eq hs rfl) rfl

theorem excludesBlk_resOk (inp : ConfigGeneralInput) (env : Env) (s : MState) :
    (excludesBlk inp env s).resOk inp env := by
  unfold excludesBlk
  repeat' split
  all_goals first | trivial | exact Or.inl rfl

theorem excludesBlk_inv (inp : ConfigGeneralInput) (env : Env) (s : MState)
    (hs : noRefreshEvents s) : noRefreshEvents (excludesBlk inp env s).state := by
  unfold excludesBlk
  repeat' split
  all_goals exact noRefresh_of_events_eq hs rfl

theorem imageExcludesBlk_resOk (inp : ConfigGeneralInput) (env : Env)
    (s : MState) : (imageExcludesBlk inp env s).resOk inp env := by
  unfold imageExcludesBlk
  repeat' split
  all_goals first | trivial | exact Or.inl rfl

theorem imageExcludesBlk_inv (inp : ConfigGeneralInput) (env : Env) (s : MState)
    (hs : noRefreshEvents s) :
    noRefreshEvents (imageExcludesBlk inp env s).state := by
  unfold imageExcludesBlk
  repeat' split
  all_goals exact noRefresh_of_events_eq hs rfl

theorem customPerformerBlk_resOk (inp : ConfigGeneralInput) (env : Env)
    (s : MState) : (customPerformerBlk inp s).resOk inp env := by
  unfold customPerformerBlk
  repeat' split
  all_goals first | trivial | exact Or.inl rfl

theorem customPerformerBlk_inv (inp : ConfigGeneralInput) (s : MState)
    (hs : noRefreshEvents s) :
    noRefreshEvents (customPerformerBlk inp s).state := by
  unfold customPerformerBlk
  repeat' split
  all_goals
    first
      | exact noRefresh_of_events_eq hs rfl
      | exact noRefresh_addEvent (noRefresh_of_events_eq hs rfl) rfl

theorem stashBoxesBlk_resOk (inp : ConfigGeneralInput) (env : Env)
    (s : MState) : (stashBoxesBlk inp env s).resOk inp env := by
  unfold stashBoxesBlk
  split
  · trivial
  · rename_i bs hbs
    split
    · rename_i m hm
      exact Or.inr ⟨bs, m, hbs, hm, rfl⟩
    · trivial

theorem stashBoxesBlk_inv (inp : ConfigGeneralInput) (env : Env) (s : MState)
    (hs : noRefreshEvents s) :
    noRefreshEvents (stashBoxesBlk inp env s).state := by
  unfold stashBoxesBlk
  repeat' split
  all_goals exact noRefresh_of_events_eq hs rfl

theorem pureBlk_resOk (inp : ConfigGeneralInput) (env : Env)
    (f : MState → MState) (s : MState) : (pureBlk f s).resOk inp env := by
  trivial

theorem pureBlk_inv (f : MState → MState)
    (hf : ∀ s, (f s).events = s.events) (s : MState)
    (hs : noRefreshEvents s) : noRefreshEvents (pureBlk f s).state := by
  exact noRefresh_of_events_eq hs (hf s)

theorem scraperPkgBlk_inv (inp : ConfigGeneralInput) (s : MState)
    (hs : noRefreshEvents s) : noRefreshEvents (scraperPkgBlk inp s).state := by
  unfold scraperPkgBlk pureBlk
  apply noRefresh_of_events_eq hs
  dsimp only [Step.state]
  cases inp.scraperPackageSources <;> rfl

theorem pluginPkgBlk_inv (inp : ConfigGeneralInput) (s : MState)
    (hs : noRefreshEvents s) : noRefreshEvents (pluginPkgBlk inp s).state := by
  unfold pluginPkgBlk pureBlk
  apply noRefresh_of_events_eq hs
  dsimp only [Step.state]
  cases inp.pluginPackageSources <;> rfl

/- Whole-list lemmas over the ConfigureGeneral blocks. -/

theorem generalBlocks_resOk (inp : ConfigGeneralInput) (env : Env) :
    ∀ b ∈ generalBlocks inp env, ∀ s, (b s).resOk inp env := by
  intro b hb
  simp only [generalBlocks, List.mem_cons, List.not_mem_nil, or_false] at hb
  rcases hb with rfl | rfl | rfl | rfl | rfl | rfl | rfl | rfl | rfl | rfl | rfl | rfl | rfl |
    rfl | rfl | rfl | rfl | rfl | rfl | rfl | rfl | rfl | rfl | rfl | rfl | rfl | rfl | rfl |
    rfl | rfl | rfl | rfl | rfl | rfl | rfl | rfl | rfl | rfl | rfl | rfl | rfl | rfl | rfl |
    rfl | rfl | rfl | rfl | rfl | rfl | rfl
  all_goals intro s
  all_goals
    first
      | exact stashBlk_resOk inp env s
      | exact dbBlk_resOk inp env s
      | exact validateDirBlk_resOk inp env _ _ _ _ s
      | exact blobsStorageBlk_resOk inp env s
      | exact ffmpegBlk_resOk inp env s
      | exact ffprobeBlk_resOk inp env s
      | exact namingAlgBlk_resOk inp env s
      | exact galleryCoverBlk_resOk inp env s
      | exact usernameBlk_resOk inp env s
      | exact passwordBlk_resOk inp env s
      | exact logLevelBlk_resOk inp env s
      | exact excludesBlk_resOk inp env s
      | exact imageExcludesBlk_resOk inp env s
      | exact customPerformerBlk_resOk inp env s
      | exact stashBoxesBlk_resOk inp env s
      | exact pureBlk_resOk inp env _ s

set_option maxHeartbeats 2000000 in
theorem generalBlocks_inv (inp : ConfigGeneralInput) (env : Env) :
    ∀ b ∈ generalBlocks inp env, ∀ s, noRefreshEvents s →
      noRefreshEvents (b s).state := by
  intro b hb
  simp only [generalBlocks, List.mem_cons, List.not_mem_nil, or_false] at hb
  rcases hb with rfl | rfl | rfl | rfl | rfl | rfl | rfl | rfl | rfl | rfl | rfl | rfl | rfl |
    rfl | rfl | rfl | rfl | rfl | rfl | rfl | rfl | rfl | rfl | rfl | rfl | rfl | rfl | rfl |
    rfl | rfl | rfl | rfl | rfl | rfl | rfl | rfl | rfl | rfl | rfl | rfl | rfl | rfl | rfl |
    rfl | rfl | rfl | rfl | rfl | rfl | rfl
  all_goals intro s hs
  all_goals
    first
      | exact stashBlk_inv inp env s hs
      | exact dbBlk_inv inp env s hs
      | exact validateDirBlk_inv _ _ _ _ id (fun _ => rfl) s hs
      | exact validateDirBlk_inv _ _ _ _ withScraperFlags (fun _ => rfl) s hs
      | exact validateDirBlk_inv _ _ _ _ withPluginFlags (fun _ => rfl) s hs
      | exact validateDirBlk_inv _ _ _ _ withStreamFlag (fun _ => rfl) s hs
      | exact validateDirBlk_inv _ _ _ _ withBlobFlag (fun _ => rfl) s hs
      | exact blobsStorageBlk_inv inp s hs
      | exact ffmpegBlk_inv inp env s hs
      | exact ffprobeBlk_inv inp env s hs
      | exact namingAlgBlk_inv inp env s hs
      | exact galleryCoverBlk_inv inp env s hs
      | exact usernameBlk_inv inp s hs
      | exact passwordBlk_inv inp env s hs
      | exact logLevelBlk_inv inp s hs
      | exact excludesBlk_inv inp env s hs
      | exact imageExcludesBlk_inv inp env s hs
      | exact customPerformerBlk_inv inp s hs
      | exact stashBoxesBlk_inv inp env s hs
      | exact scraperPkgBlk_inv inp s hs
      | exact pluginPkgBlk_inv inp s hs
      | exact pureBlk_inv _ (fun s2 => applyOpt_events _ _ _ s2) s hs

/- generalWriteStage support lemmas. -/

theorem generalWriteStage_ok (env : Env) (s : MState) :
    (generalWriteStage env s).ok = true := by
  unfold generalWriteStage
  cases env.writeResult with
  | none => rfl
  | some e => dsimp only; split <;> rfl

theorem generalWriteStage_events_some (env : Env) (s : MState)
    (e0 : ConfigError) (h : env.writeResult = some e0) :
    (generalWriteStage env s).state.events = s.events ++ [.writeCalled] := by
  unfold generalWriteStage
  rw [h]
  dsimp only
  split <;> rfl

theorem generalWriteStage_writeCalled (env : Env) (s : MState)
    (h : env.writeResult = none) :
    Event.writeCalled ∈ (generalWriteStage env s).state.events := by
  unfold generalWriteStage
  rw [h]
  dsimp only
  apply mem_ite_addEvent
  apply mem_ite_addEvent
  apply mem_ite_addEvent
  apply mem_ite_addEvent
  apply mem_ite_addEvent
  apply mem_ite_addEvent
  apply mem_ite_addEvent
  simp [addEvent]

/- ConfigureScraping and ConfigureDlna support lemmas. -/

theorem scrapingFields_resTrue (inp : ConfigScrapingInput) (env : Env)
    (s : MState) : (scrapingFields inp env s).resTrue := by
  unfold scrapingFields
  dsimp only
  repeat' split
  all_goals trivial

theorem scrapingFields_noPanic (inp : ConfigScrapingInput) (env : Env)
    (s : MState) : (scrapingFields inp env s).noPanic := by
  unfold scrapingFields
  dsimp only
  repeat' split
  all_goals trivial

theorem configureDlna_events_some (inp : ConfigDLNAInput) (env : Env)
    (vals : String → CValue) (e0 : ConfigError) (h : env.writeResult = some e0) :
    (configureDlna inp env vals).state.events = [.writeCalled] := by
  cases h2 : env.allowReadOnly <;>
    simp [configureDlna, writeTail, h, h2, addEvent, applyOpt_events, mkState]

theorem configureDlna_writeCalled (inp : ConfigDLNAInput) (env : Env)
    (vals : String → CValue) (h : env.writeResult = none) :
    Event.writeCalled ∈ (configureDlna inp env vals).state.events := by
  cases he : inp.enabled <;>
    simp [configureDlna, writeTail, h, he, addEvent, applyOpt_events, mkState]

/- Regex-loop and stash-loop support lemmas. -/

theorem firstBad_isSome (env : Env) :
    ∀ (l : List String) (p : String), p ∈ l → env.regexCompile p ≠ none →
    ∃ qm, firstBad env l = some qm := by
  intro l
  induction l with
  | nil => intro p hp; cases hp
  | cons q rest ih =>
    intro p hp hbad
    unfold firstBad
    cases hc : env.regexCompile q with
    | some m => exact ⟨(q, m), rfl⟩
    | none =>
      rcases List.mem_cons.1 hp with rfl | hp2
      · exact absurd hc hbad
      · exact ih p hp2 hbad

theorem checkStashes_all_ex (env : Env) (ex : List StashInput) :
    ∀ (l : List StashInput) (s : MState),
    (∀ st ∈ l, ex.any (fun p => p.path = st.path) = true) →
    checkStashes env ex l s = .go s := by
  intro l
  induction l with
  | nil => intro s _; rfl
  | cons st rest ih =>
    intro s hall
    unfold checkStashes
    rw [if_pos (hall st (List.mem_cons_self _ _))]
    exact ih s (fun t ht => hall t (List.mem_cons_of_mem _ ht))

theorem checkStashes_bad (env : Env) (ex : List StashInput) (st : StashInput)
    (l2 : List StashInput) (hnew : ex.any (fun p => p.path = st.path) = false)
    (hne : (env.dirExists st.path).1 = false) :
    ∀ (l1 : List StashInput) (s : MState),
    (∀ t ∈ l1, ex.any (fun p => p.path = t.path) = true) →
    checkStashes env ex (l1 ++ st :: l2) s =
      .halt (addEvent (.checkedDir st.path) s) true (env.dirExists st.path).2 := by
  intro l1
  induction l1 with
  | nil =>
    intro s _
    rw [List.nil_append]
    unfold checkStashes
    simp [hnew, hne]
  | cons t rest ih =>
    intro s hall
    rw [List.cons_append]
    unfold checkStashes
    rw [if_pos (hall t (List.mem_cons_self _ _))]
    exact ih s (fun t2 ht2 => hall t2 (List.mem_cons_of_mem _ ht2))

/-- C1 counterexample: with an invalid StashBoxes value, `ConfigureGeneral`
returns an error together with a null (absent) result record, contradicting
the claim that every error comes with a non-null result. -/
theorem c1_counterexample :
    (configureGeneral inC1 envC1 valsW).err ≠ none ∧
    (configureGeneral inC1 envC1 valsW).ok = false := by
  decide

/-- C1 (amended): every mutation handler returns a non-null result record
alongside every error, except for the StashBoxes validation failure of
`ConfigureGeneral`, which returns a null result: whenever `ConfigureGeneral`
errors with a null result, the error is exactly the stash-box validation
error of the input. -/
theorem c1_amended_nonnull :
    (∀ (inp : ConfigGeneralInput) (env : Env) (vals : String → CValue) (e : ConfigError),
      (configureGeneral inp env vals).err = some e →
      (configureGeneral inp env vals).ok = false →
      ∃ bs, inp.stashBoxes = some bs ∧ env.validateStashBoxes bs = some e) ∧
    (∀ (inp : ConfigInterfaceInput) (env : Env) (vals : String → CValue),
      (configureInterface inp env vals).ok = true) ∧
    (∀ (inp : ConfigDLNAInput) (env : Env) (vals : String → CValue),
      (configureDlna inp env vals).ok = true) ∧
    (∀ (inp : ConfigScrapingInput) (env : Env) (vals : String → CValue),
      (configureScraping inp env vals).ok = true) ∧
    (∀ (inp : ConfigDefaultSettingsInput) (env : Env) (vals : String → CValue),
      (configureDefaults inp env vals).ok = true) := by
  refine ⟨?_, ?_, ?_, ?_, ?_⟩
  · intro inp env vals e herr hok
    unfold configureGeneral at herr hok
    cases hrb : runBlocks (generalBlocks inp env) (mkState vals) with
    | go s =>
      rw [hrb] at hok
      rw [generalWriteStage_ok] at hok
      cases hok
    | halt s r e2 =>
      rw [hrb] at herr hok
      dsimp only at herr hok
      have hres := runBlocks_pred (Step.resOk inp env) (fun _ => trivial)
        (generalBlocks inp env) (generalBlocks_resOk inp env) (mkState vals)
      rw [hrb] at hres
      rcases hres with hr | ⟨bs, m, hbs, hm, he⟩
      · rw [hr] at hok; cases hok
      · rw [herr] at he
        obtain rfl : m = e := by injection he with hme; exact hme.symm
        exact ⟨bs, hbs, hm⟩
    | panicked s =>
      rw [hrb] at herr
      cases herr
  · intro inp env vals
    rfl
  · intro inp env vals
    cases h : env.writeResult <;> cases h2 : env.allowReadOnly <;>
      simp [configureDlna, writeTail, h, h2]
  · intro inp env vals
    unfold configureScraping
    cases h : scrapingFields inp env (mkState vals) with
    | go s => rfl
    | halt s r e =>
      have := scrapingFields_resTrue inp env (mkState vals)
      rw [h] at this
      exact this
    | panicked s =>
      have := scrapingFields_noPanic inp env (mkState vals)
      rw [h] at this
      cases this
  · intro inp env vals
    rfl

/-- C2: with a Username present (and differing from the stored one) and the
Password field absent, `ConfigureGeneral` dereferences the nil Password
pointer and panics instead of returning a result record. -/
theorem c2_username_nil_password_panics :
    (configureGeneral inC2 envW valsW).panicked = true ∧
    (configureGeneral inC2 envW valsW).err = none ∧
    Event.writeCalled ∉ (configureGeneral inC2 envW valsW).state.events := by
  decide

/-- C3: for each of the eight override-governed keys of `ConfigureGeneral`
(database, backup, generated, scrapers, plugins, metadata, cache, blobs
paths), a mutation changing an overridden key returns the OverriddenConfig
error for that key, no setter runs, and the write is never attempted. -/
theorem c3_override_locked_keys :
    (∀ (env : Env) (vals : String → CValue) (v : String),
      env.hasOverride kDatabase = true → getString vals kDatabase ≠ v →
      (configureGeneral { databasePath := some v } env vals).err =
        some (.overriddenConfig kDatabase) ∧
      (configureGeneral { databasePath := some v } env vals).ok = true ∧
      (configureGeneral { databasePath := some v } env vals).state.writeLog = [] ∧
      Event.writeCalled ∉ (configureGeneral { databasePath := some v } env vals).state.events) ∧
    (∀ (env : Env) (vals : String → CValue) (v : String),
      env.hasOverride kBackupDirectoryPath = true →
      getString vals kBackupDirectoryPath ≠ v →
      (configureGeneral { backupDirectoryPath := some v } env vals).err =
        some (.overriddenConfig kBackupDirectoryPath) ∧
      (configureGeneral { backupDirectoryPath := some v } env vals).ok = true ∧
      (configureGeneral { backupDirectoryPath := some v } env vals).state.writeLog = [] ∧
      Event.writeCalled ∉ (configureGeneral { backupDirectoryPath := some v } env vals).state.events) ∧
    (∀ (env : Env) (vals : String → CValue) (v : String),
      env.hasOverride kGenerated = true → getString vals kGenerated ≠ v →
      (configureGeneral { generatedPath := some v } env vals).err =
        some (.overriddenConfig kGenerated) ∧
      (configureGeneral { generatedPath := some v } env vals).ok = true ∧
      (configureGeneral { generatedPath := some v } env vals).state.writeLog = [] ∧
      Event.writeCalled ∉ (configureGeneral { generatedPath := some v } env vals).state.events) ∧
    (∀ (env : Env) (vals : String → CValue) (v : String),
      env.hasOverride kScrapersPath = true → getString vals kScrapersPath ≠ v →
      (configureGeneral { scrapersPath := some v } env vals).err =
        some (.overriddenConfig kScrapersPath) ∧
      (configureGeneral { scrapersPath := some v } env vals).ok = true ∧
      (configureGeneral { scrapersPath := some v } env vals).state.writeLog = [] ∧
      Event.writeCalled ∉ (configureGeneral { scrapersPath := some v } env vals).state.events) ∧
    (∀ (env : Env) (vals : String → CValue) (v : String),
      env.hasOverride kPluginsPath = true → getString vals kPluginsPath ≠ v →
      (configureGeneral { pluginsPath := some v } env vals).err =
        some (.overriddenConfig kPluginsPath) ∧
      (configureGeneral { pluginsPath := some v } env vals).ok = true ∧
      (configureGeneral { pluginsPath := some v } env vals).state.writeLog = [] ∧
      Event.writeCalled ∉ (configureGeneral { pluginsPath := some v } env vals).state.events) ∧
    (∀ (env : Env) (vals : String → CValue) (v : String),
      env.hasOverride kMetadata = true → getString vals kMetadata ≠ v →
      (configureGeneral { metadataPath := some v } env vals).err =
        some (.overriddenConfig kMetadata) ∧
      (configureGeneral { metadataPath := some v } env vals).ok = true ∧
      (configureGeneral { metadataPath := some v } env vals).state.writeLog = [] ∧
      Event.writeCalled ∉ (configureGeneral { metadataPath := some v } env vals).state.events) ∧
    (∀ (env : Env) (vals : String → CValue) (v : String),
      env.hasOverride kCache = true → getString vals kCache ≠ v →
      (configureGeneral { cachePath := some v } env vals).err =
        some (.overriddenConfig kCache) ∧
      (configureGeneral { cachePath := some v } env vals).ok = true ∧
      (configureGeneral { cachePath := some v } env vals).state.writeLog = [] ∧
      Event.writeCalled ∉ (configureGeneral { cachePath := some v } env vals).state.events) ∧
    (∀ (env : Env) (vals : String → CValue) (v : String),
      env.hasOverride kBlobsPath = true → getString vals kBlobsPath ≠ v →
      (configureGeneral { blobsPath := some v } env vals).err =
        some (.overriddenConfig kBlobsPath) ∧
      (configureGeneral { blobsPath := some v } env vals).ok = true ∧
      (configureGeneral { blobsPath := some v } env vals).state.writeLog = [] ∧
      Event.writeCalled ∉ (configureGeneral { blobsPath := some v } env vals).state.events) := by
  refine ⟨?_, ?_, ?_, ?_, ?_, ?_, ?_, ?_⟩
  all_goals
    intro env vals v h1 h2
  all_goals
    simp [configureGeneral, generalBlocks, runBlocks, Step.then, mkState,
      stashBlk, dbBlk, validateDirBlk, blobsStorageBlk, ffmpegBlk, ffprobeBlk,
      namingAlgBlk, galleryCoverBlk, usernameBlk, passwordBlk, logLevelBlk,
      excludesBlk, imageExcludesBlk, customPerformerBlk, stashBoxesBlk,
      scraperPkgBlk, pluginPkgBlk, pureBlk, applyOpt, h1, h2]

/-- C5 counterexample: `ConfigureScraping` invokes the scraper-cache
refresh hook even though the subsequent Write fails, contradicting the
claim that no refresh hook fires unless the commit succeeded. -/
theorem c5_counterexample :
    Event.refreshScraperCache ∈ (configureScraping inC5 envC5 valsW).state.events ∧
    (configureScraping inC5 envC5 valsW).err ≠ none := by
  decide

/-- C5 (amended): in `ConfigureGeneral` and `ConfigureDlna` a refresh hook
fires only after the commit was attempted and succeeded, but
`ConfigureScraping` invokes the scraper-cache refresh before Write, so that
hook fires even when the commit then fails. -/
theorem c5_amended_refresh_order :
    (∀ (inp : ConfigGeneralInput) (env : Env) (vals : String → CValue) (ev : Event),
      ev ∈ (configureGeneral inp env vals).state.events → ev.isRefresh = true →
      env.writeResult = none ∧
        Event.writeCalled ∈ (configureGeneral inp env vals).state.events) ∧
    (∀ (inp : ConfigDLNAInput) (env : Env) (vals : String → CValue) (ev : Event),
      ev ∈ (configureDlna inp env vals).state.events → ev.isRefresh = true →
      env.writeResult = none ∧
        Event.writeCalled ∈ (configureDlna inp env vals).state.events) ∧
    (∀ (ua : String) (env : Env) (vals : String → CValue),
      (configureScraping { scraperUserAgent := some ua } env vals).state.events =
        [.refreshScraperCache, .writeCalled] ∧
      (∀ e0 : ConfigError, env.writeResult = some e0 →
        (configureScraping { scraperUserAgent := some ua } env vals).err ≠ none)) := by
  refine ⟨?_, ?_, ?_⟩
  · intro inp env vals ev hev hr
    have hinv : noRefreshEvents (runBlocks (generalBlocks inp env) (mkState vals)).state :=
      runBlocks_inv _ _ (generalBlocks_inv inp env) _ (by intro e he; simp [mkState] at he)
    unfold configureGeneral at hev ⊢
    cases hrb : runBlocks (generalBlocks inp env) (mkState vals) with
    | go s =>
      rw [hrb] at hev hinv
      dsimp only [Step.state] at hinv
      dsimp only at hev ⊢
      cases hw : env.writeResult with
      | none => exact ⟨rfl, generalWriteStage_writeCalled env s hw⟩
      | some e0 =>
        rw [generalWriteStage_events_some env s e0 hw] at hev
        rcases List.mem_append.1 hev with h1 | h2
        · rw [hinv ev h1] at hr; cases hr
        · rw [List.mem_singleton.1 h2] at hr; cases hr
    | halt s r e =>
      rw [hrb] at hev hinv
      dsimp only [Step.state] at hinv
      dsimp only at hev
      rw [hinv ev hev] at hr
      cases hr
    | panicked s =>
      rw [hrb] at hev hinv
      dsimp only [Step.state] at hinv
      dsimp only at hev
      rw [hinv ev hev] at hr
      cases hr
  · intro inp env vals ev hev hr
    cases hw : env.writeResult with
    | none => exact ⟨rfl, configureDlna_writeCalled inp env vals hw⟩
    | some e0 =>
      rw [configureDlna_events_some inp env vals e0 hw] at hev
      rw [List.mem_singleton.1 hev] at hr
      cases hr
  · intro ua env vals
    constructor
    · cases hw : env.writeResult <;> cases h2 : env.allowReadOnly <;>
        simp [configureScraping, scrapingFields, scrapingTail, writeTail, hw, h2,
          addEvent, applyKV, recordLocal, storeSet, applyOpt, mkState]
    · intro e0 hw
      cases h2 : env.allowReadOnly <;>
        simp [configureScraping, scrapingFields, scrapingTail, writeTail, hw, h2,
          addEvent, applyKV, recordLocal, storeSet, applyOpt, mkState]

/-- C4 counterexample: with only `CustomPerformerImageLocation` present and
a tolerated commit failure, the error payload is empty although the
corresponding store setter was invoked in the call — the payload does not
reproduce the applied key/value pairs. -/
theorem c4_counterexample :
    (configureGeneral inC4 envC4 valsW).err = some (.readOnlyPayload []) ∧
    (configureGeneral inC4 envC4 valsW).state.writeLog =
      [(kCustomPerformerImageLocation, CValue.vs "/p")] := by
  decide

/-- C4 (amended): under a tolerated commit failure the error payload
reproduces exactly the recorded change set (`localConfig`), which omits the
keys written via the `CustomPerformerImageLocation` setter, the CSS-style
file setters, and the partial UI-configuration merge; keys applied through
the recording setters do appear with their written values. -/
theorem c4_amended_payload :
    (∀ (env : Env) (vals : String → CValue) (loc : String) (e0 : ConfigError),
      env.writeResult = some e0 → env.allowReadOnly = true →
      (configureGeneral { customPerformerImageLocation := some loc } env vals).err =
        some (.readOnlyPayload []) ∧
      (configureGeneral { customPerformerImageLocation := some loc } env vals).state.writeLog =
        [(kCustomPerformerImageLocation, CValue.vs loc)]) ∧
    (∀ (env : Env) (vals : String → CValue) (p : UIMap) (e0 : ConfigError),
      env.writeResult = some e0 → env.allowReadOnly = true →
      (configureUI none (some p) env vals).err = some (.readOnlyPayload []) ∧
      (configureUI none (some p) env vals).state.writeLog =
        [(kUI, CValue.vui (env.mergeMaps (getUIConfig vals) p))]) ∧
    (∀ (env : Env) (vals : String → CValue) (cssv : String) (e0 : ConfigError),
      env.writeResult = some e0 → env.allowReadOnly = true →
      (configureInterface { css := some cssv } env vals).err =
        some (.readOnlyPayload []) ∧
      (configureInterface { css := some cssv } env vals).state.writeLog =
        [(kCSS, CValue.vs cssv)]) ∧
    (∀ (env : Env) (vals : String → CValue) (n : Int) (e0 : ConfigError),
      env.writeResult = some e0 → env.allowReadOnly = true →
      (configureGeneral { parallelTasks := some n } env vals).err =
        some (.readOnlyPayload [(kParallelTasks, CValue.vi n)]) ∧
      (configureGeneral { parallelTasks := some n } env vals).state.writeLog =
        [(kParallelTasks, CValue.vi n)]) := by
  refine ⟨?_, ?_, ?_, ?_⟩
  · intro env vals loc e0 hw ha
    simp [configureGeneral, generalBlocks, runBlocks, Step.then, mkState,
      stashBlk, dbBlk, validateDirBlk, blobsStorageBlk, ffmpegBlk, ffprobeBlk,
      namingAlgBlk, galleryCoverBlk, usernameBlk, passwordBlk, logLevelBlk,
      excludesBlk, imageExcludesBlk, customPerformerBlk, stashBoxesBlk,
      scraperPkgBlk, pluginPkgBlk, pureBlk, applyOpt, storeSet, addEvent,
      generalWriteStage, hw, ha]
  · intro env vals p e0 hw ha
    simp [configureUI, writeTail, mkState, storeSet, recordLocal, mapSet,
      addEvent, getUIConfig, hw, ha]
  · intro env vals cssv e0 hw ha
    simp [configureInterface, writeTail, mkState, storeSet, applyOpt,
      addEvent, hw, ha]
  · intro env vals n e0 hw ha
    simp [configureGeneral, generalBlocks, runBlocks, Step.then, mkState,
      stashBlk, dbBlk, validateDirBlk, blobsStorageBlk, ffmpegBlk, ffprobeBlk,
      namingAlgBlk, galleryCoverBlk, usernameBlk, passwordBlk, logLevelBlk,
      excludesBlk, imageExcludesBlk, customPerformerBlk, stashBoxesBlk,
      scraperPkgBlk, pluginPkgBlk, pureBlk, applyOpt, applyKV, recordLocal,
      storeSet, mapSet, addEvent, generalWriteStage, hw, ha]

/-- C6: changing the naming algorithm to MD5 while MD5 calculation is
disabled and not enabled in the same input fails with the policy error and
no setter runs; enabling MD5 calculation in the same input makes the
pending value govern the check and the algorithm setter runs (subject to
repository validation). -/
theorem c6_md5_policy :
    (∀ (env : Env) (vals : String → CValue),
      getBool vals kCalculateMD5 = false →
      HashAlgorithm.md5 ≠ getHashAlg vals →
      (configureGeneral { videoFileNamingAlgorithm := some .md5 } env vals).err =
        some .md5Required ∧
      (configureGeneral { videoFileNamingAlgorithm := some .md5 } env vals).ok = true ∧
      (configureGeneral { videoFileNamingAlgorithm := some .md5 } env vals).state.writeLog = [] ∧
      Event.writeCalled ∉
        (configureGeneral { videoFileNamingAlgorithm := some .md5 } env vals).state.events) ∧
    (∀ (env : Env) (vals : String → CValue),
      HashAlgorithm.md5 ≠ getHashAlg vals →
      (configureGeneral { videoFileNamingAlgorithm := some .md5, calculateMd5 := some false }
        env vals).err = some .md5Required ∧
      (configureGeneral { videoFileNamingAlgorithm := some .md5, calculateMd5 := some false }
        env vals).state.writeLog = [] ∧
      Event.writeCalled ∉
        (configureGeneral { videoFileNamingAlgorithm := some .md5, calculateMd5 := some false }
          env vals).state.events) ∧
    (∀ (env : Env) (vals : String → CValue),
      HashAlgorithm.md5 ≠ getHashAlg vals →
      env.validateNamingAlg .md5 = none →
      (configureGeneral { videoFileNamingAlgorithm := some .md5, calculateMd5 := some true }
        env vals).state.writeLog =
        [(kVideoFileNamingAlgorithm, CValue.vhash .md5), (kCalculateMD5, CValue.vb true)]) := by
  refine ⟨?_, ?_, ?_⟩
  · intro env vals h1 h2
    simp [configureGeneral, generalBlocks, runBlocks, Step.then, mkState,
      stashBlk, dbBlk, validateDirBlk, blobsStorageBlk, ffmpegBlk, ffprobeBlk,
      namingAlgBlk, effCalcMd5, galleryCoverBlk, usernameBlk, passwordBlk,
      logLevelBlk, excludesBlk, imageExcludesBlk, customPerformerBlk,
      stashBoxesBlk, scraperPkgBlk, pluginPkgBlk, pureBlk, applyOpt, h1, h2]
  · intro env vals h2
    simp [configureGeneral, generalBlocks, runBlocks, Step.then, mkState,
      stashBlk, dbBlk, validateDirBlk, blobsStorageBlk, ffmpegBlk, ffprobeBlk,
      namingAlgBlk, effCalcMd5, galleryCoverBlk, usernameBlk, passwordBlk,
      logLevelBlk, excludesBlk, imageExcludesBlk, customPerformerBlk,
      stashBoxesBlk, scraperPkgBlk, pluginPkgBlk, pureBlk, applyOpt, h2]
  · intro env vals h2 h3
    cases hw : env.writeResult <;> cases ha : env.allowReadOnly <;>
      simp [configureGeneral, generalBlocks, runBlocks, Step.then, mkState,
        stashBlk, dbBlk, validateDirBlk, blobsStorageBlk, ffmpegBlk, ffprobeBlk,
        namingAlgBlk, effCalcMd5, galleryCoverBlk, usernameBlk, passwordBlk,
        logLevelBlk, excludesBlk, imageExcludesBlk, customPerformerBlk,
        stashBoxesBlk, scraperPkgBlk, pluginPkgBlk, pureBlk, applyOpt, applyKV,
        recordLocal, storeSet, mapSet, addEvent, generalWriteStage, h2, h3, hw, ha]

/-- C7: a non-compiling pattern in the video or image exclusion lists, the
gallery cover regex, or the scraping tag-exclusion list makes the mutation
fail with the corresponding validation error, without invoking the field's
setter and without ever calling Write in that invocation. -/
theorem c7_regex_validation :
    (∀ (env : Env) (vals : String → CValue) (l : List String) (p : String),
      p ∈ l → env.regexCompile p ≠ none →
      (∃ q m, (configureGeneral { excludes := some l } env vals).err =
        some (.invalidVideoExclude q m)) ∧
      (configureGeneral { excludes := some l } env vals).state.writeLog = [] ∧
      Event.writeCalled ∉ (configureGeneral { excludes := some l } env vals).state.events) ∧
    (∀ (env : Env) (vals : String → CValue) (l : List String) (p : String),
      p ∈ l → env.regexCompile p ≠ none →
      (∃ q m, (configureGeneral { imageExcludes := some l } env vals).err =
        some (.invalidImageExclude q m)) ∧
      (configureGeneral { imageExcludes := some l } env vals).state.writeLog = [] ∧
      Event.writeCalled ∉
        (configureGeneral { imageExcludes := some l } env vals).state.events) ∧
    (∀ (env : Env) (vals : String → CValue) (r : String) (m : String),
      env.regexCompile r = some m →
      (configureGeneral { galleryCoverRegex := some r } env vals).err =
        some (.invalidGalleryCoverRegex r m) ∧
      (configureGeneral { galleryCoverRegex := some r } env vals).state.writeLog = [] ∧
      Event.writeCalled ∉
        (configureGeneral { galleryCoverRegex := some r } env vals).state.events) ∧
    (∀ (env : Env) (vals : String → CValue) (l : List String) (p : String),
      p ∈ l → env.regexCompile p ≠ none →
      (∃ q m, (configureScraping { excludeTagPatterns := some l } env vals).err =
        some (.invalidTagExclude q m)) ∧
      (configureScraping { excludeTagPatterns := some l } env vals).state.writeLog = [] ∧
      Event.writeCalled ∉
        (configureScraping { excludeTagPatterns := some l } env vals).state.events ∧
      Event.refreshScraperCache ∉
        (configureScraping { excludeTagPatterns := some l } env vals).state.events) := by
  refine ⟨?_, ?_, ?_, ?_⟩
  · intro env vals l p hp hbad
    obtain ⟨⟨q, m⟩, hfb⟩ := firstBad_isSome env l p hp hbad
    refine ⟨⟨q, m, ?_⟩, ?_, ?_⟩ <;>
      simp [configureGeneral, generalBlocks, runBlocks, Step.then, mkState,
        stashBlk, dbBlk, validateDirBlk, blobsStorageBlk, ffmpegBlk, ffprobeBlk,
        namingAlgBlk, galleryCoverBlk, usernameBlk, passwordBlk, logLevelBlk,
        excludesBlk, imageExcludesBlk, customPerformerBlk, stashBoxesBlk,
        scraperPkgBlk, pluginPkgBlk, pureBlk, applyOpt, hfb]
  · intro env vals l p hp hbad
    obtain ⟨⟨q, m⟩, hfb⟩ := firstBad_isSome env l p hp hbad
    refine ⟨⟨q, m, ?_⟩, ?_, ?_⟩ <;>
      simp [configureGeneral, generalBlocks, runBlocks, Step.then, mkState,
        stashBlk, dbBlk, validateDirBlk, blobsStorageBlk, ffmpegBlk, ffprobeBlk,
        namingAlgBlk, galleryCoverBlk, usernameBlk, passwordBlk, logLevelBlk,
        excludesBlk, imageExcludesBlk, customPerformerBlk, stashBoxesBlk,
        scraperPkgBlk, pluginPkgBlk, pureBlk, applyOpt, hfb]
  · intro env vals r m hc
    simp [configureGeneral, generalBlocks, runBlocks, Step.then, mkState,
      stashBlk, dbBlk, validateDirBlk, blobsStorageBlk, ffmpegBlk, ffprobeBlk,
      namingAlgBlk, galleryCoverBlk, usernameBlk, passwordBlk, logLevelBlk,
      excludesBlk, imageExcludesBlk, customPerformerBlk, stashBoxesBlk,
      scraperPkgBlk, pluginPkgBlk, pureBlk, applyOpt, hc]
  · intro env vals l p hp hbad
    obtain ⟨⟨q, m⟩, hfb⟩ := firstBad_isSome env l p hp hbad
    refine ⟨⟨q, m, ?_⟩, ?_, ?_, ?_⟩ <;>
      simp [configureScraping, scrapingFields, scrapingTail, writeTail,
        mkState, applyOpt, hfb]

/-- C8: when the ffmpeg (or ffprobe) binary path changes and the commit
succeeds, the transcoder refresh fires and is followed by the
streaming-manager refresh, even though no streaming-related field was
present in the input. -/
theorem c8_ffmpeg_refresh :
    (∀ (env : Env) (vals : String → CValue) (p : String),
      env.writeResult = none →
      p ≠ getString vals kFFMpegPath →
      (p = "" ∨ env.validateFFMpeg p = none) →
      (configureGeneral { ffmpegPath := some p } env vals).state.events =
        [.writeCalled, .refreshConfig, .refreshFFMpeg, .refreshStreamManager] ∧
      (configureGeneral { ffmpegPath := some p } env vals).err = none) ∧
    (∀ (env : Env) (vals : String → CValue) (p : String),
      env.writeResult = none →
      p ≠ getString vals kFFProbePath →
      (p = "" ∨ env.validateFFProbe p = none) →
      (configureGeneral { ffprobePath := some p } env vals).state.events =
        [.writeCalled, .refreshConfig, .refreshFFMpeg, .refreshStreamManager] ∧
      (configureGeneral { ffprobePath := some p } env vals).err = none) := by
  constructor
  · intro env vals p hw h2 h3
    have haux : (if p ≠ "" then env.validateFFMpeg p else none) = none := by
      rcases h3 with rfl | hv
      · simp
      · split <;> simp [hv]
    simp [configureGeneral, generalBlocks, runBlocks, Step.then, mkState,
      stashBlk, dbBlk, validateDirBlk, blobsStorageBlk, ffmpegBlk, ffprobeBlk,
      namingAlgBlk, galleryCoverBlk, usernameBlk, passwordBlk, logLevelBlk,
      excludesBlk, imageExcludesBlk, customPerformerBlk, stashBoxesBlk,
      scraperPkgBlk, pluginPkgBlk, pureBlk, applyOpt, applyKV, recordLocal,
      storeSet, addEvent, generalWriteStage, h2, haux, hw]
  · intro env vals p hw h2 h3
    have haux : (if p ≠ "" then env.validateFFProbe p else none) = none := by
      rcases h3 with rfl | hv
      · simp
      · split <;> simp [hv]
    simp [configureGeneral, generalBlocks, runBlocks, Step.then, mkState,
      stashBlk, dbBlk, validateDirBlk, blobsStorageBlk, ffmpegBlk, ffprobeBlk,
      namingAlgBlk, galleryCoverBlk, usernameBlk, passwordBlk, logLevelBlk,
      excludesBlk, imageExcludesBlk, customPerformerBlk, stashBoxesBlk,
      scraperPkgBlk, pluginPkgBlk, pureBlk, applyOpt, applyKV, recordLocal,
      storeSet, addEvent, generalWriteStage, h2, haux, hw]

/-- C9: `GenerateAPIKey` with the clear flag unset and an empty stored
username stores and returns the empty key with no error when the commit
succeeds; with the clear flag set it stores the empty key regardless; a
non-empty key arises only with the clear flag unset and a non-empty stored
username, and is the generator's output for exactly that username. -/
theorem c9_generate_api_key :
    (∀ (inp : GenerateAPIKeyInput) (env : Env) (vals : String → CValue),
      inp.clear.getD false = false → getString vals kUsername = "" →
      (generateAPIKeyRun inp env vals).key = "" ∧
      (kApiKey, CValue.vs "") ∈ (generateAPIKeyRun inp env vals).state.writeLog ∧
      (env.writeResult = none → (generateAPIKeyRun inp env vals).err = none)) ∧
    (∀ (env : Env) (vals : String → CValue),
      (generateAPIKeyRun { clear := some true } env vals).key = "" ∧
      (kApiKey, CValue.vs "") ∈
        (generateAPIKeyRun { clear := some true } env vals).state.writeLog) ∧
    (∀ (inp : GenerateAPIKeyInput) (env : Env) (vals : String → CValue) (k : String),
      (generateAPIKeyRun inp env vals).key = k → k ≠ "" →
      inp.clear.getD false = false ∧ getString vals kUsername ≠ "" ∧
      env.generateKey (getString vals kUsername) = .ok k) := by
  refine ⟨?_, ?_, ?_⟩
  · intro inp env vals hc hu
    refine ⟨?_, ?_, ?_⟩
    · simp [generateAPIKeyRun, hc, hu, writeTail, mkState, recordLocal,
        storeSet, addEvent, mapSet]
    · cases hw : env.writeResult <;> cases ha : env.allowReadOnly <;>
        simp [generateAPIKeyRun, hc, hu, writeTail, mkState, recordLocal,
          storeSet, addEvent, mapSet, hw, ha]
    · intro hw
      simp [generateAPIKeyRun, hc, hu, writeTail, mkState, recordLocal,
        storeSet, addEvent, mapSet, hw]
  · intro env vals
    refine ⟨?_, ?_⟩
    · simp [generateAPIKeyRun, writeTail, mkState, recordLocal, storeSet,
        addEvent, mapSet]
    · cases hw : env.writeResult <;> cases ha : env.allowReadOnly <;>
        simp [generateAPIKeyRun, writeTail, mkState, recordLocal, storeSet,
          addEvent, mapSet, hw, ha]
  · intro inp env vals k hk hne
    cases hc : inp.clear.getD false with
    | true =>
      simp [generateAPIKeyRun, hc] at hk
      exact absurd hk.symm hne
    | false =>
      by_cases hu : getString vals kUsername = ""
      · simp [generateAPIKeyRun, hc, hu] at hk
        exact absurd hk.symm hne
      · cases hg : env.generateKey (getString vals kUsername) with
        | error e =>
          simp [generateAPIKeyRun, hc, hu, hg] at hk
          exact absurd hk.symm hne
        | ok k2 =>
          simp [generateAPIKeyRun, hc, hu, hg] at hk
          subst hk
          exact ⟨rfl, hu, rfl⟩

/-- C10: stash entries whose path matches an existing entry are accepted
with no disk-existence check, while an input whose stash list introduces a
new path that does not exist on disk makes the mutation return early with
the directory-check error, without applying the Stashes value and without
calling Write. -/
theorem c10_stash_paths :
    (∀ (env : Env) (vals : String → CValue) (l : List StashInput),
      (∀ st ∈ l, (getStashPaths vals).any (fun p => p.path = st.path) = true) →
      (∀ x, Event.checkedDir x ∉ (configureGeneral { stashes := some l } env vals).state.events) ∧
      (kStash, CValue.vstash l) ∈
        (configureGeneral { stashes := some l } env vals).state.writeLog) ∧
    (∀ (inp : ConfigGeneralInput) (env : Env) (vals : String → CValue)
      (l1 : List StashInput) (st : StashInput) (l2 : List StashInput),
      inp.stashes = some (l1 ++ st :: l2) →
      (∀ t ∈ l1, (getStashPaths vals).any (fun p => p.path = t.path) = true) →
      (getStashPaths vals).any (fun p => p.path = st.path) = false →
      (env.dirExists st.path).1 = false →
      (configureGeneral inp env vals).err = (env.dirExists st.path).2 ∧
      (configureGeneral inp env vals).ok = true ∧
      (configureGeneral inp env vals).state.writeLog = [] ∧
      Event.writeCalled ∉ (configureGeneral inp env vals).state.events) := by
  constructor
  · intro env vals l hall
    have hck := checkStashes_all_ex env (getStashPaths vals) l (mkState vals) hall
    simp only [mkState] at hck
    cases hw : env.writeResult <;> cases ha : env.allowReadOnly <;>
      simp [configureGeneral, generalBlocks, runBlocks, Step.then, mkState,
        stashBlk, dbBlk, validateDirBlk, blobsStorageBlk, ffmpegBlk, ffprobeBlk,
        namingAlgBlk, galleryCoverBlk, usernameBlk, passwordBlk, logLevelBlk,
        excludesBlk, imageExcludesBlk, customPerformerBlk, stashBoxesBlk,
        scraperPkgBlk, pluginPkgBlk, pureBlk, applyOpt, applyKV, recordLocal,
        storeSet, mapSet, addEvent, generalWriteStage, hck, hw, ha]
  · intro inp env vals l1 st l2 hstash hex hnew hne
    have hck := checkStashes_bad env (getStashPaths vals) st l2 hnew hne l1
      (mkState vals) hex
    simp only [mkState] at hck
    simp [configureGeneral, generalBlocks, runBlocks, Step.then, mkState,
      stashBlk, hstash, hck, addEvent]

/-- Witness for C1: the amended statement applied at the concrete invalid
stash-box input. -/
theorem c1_amended_nonnull_witness :
    (configureGeneral inC1 envC1 valsW).err = some (ConfigError.ext "bad") ∧
    (configureGeneral inC1 envC1 valsW).ok = false ∧
    ∃ bs, inC1.stashBoxes = some bs ∧
      envC1.validateStashBoxes bs = some (ConfigError.ext "bad") :=
  ⟨by decide, by decide,
    c1_amended_nonnull.1 inC1 envC1 valsW (ConfigError.ext "bad") (by decide) (by decide)⟩

/-- Witness for C3: the backup-directory conjunct applied at a store whose
backup key is overridden. -/
theorem c3_override_locked_keys_witness :
    envC3.hasOverride kBackupDirectoryPath = true ∧
    getString valsW kBackupDirectoryPath ≠ "/b" ∧
    ((configureGeneral { backupDirectoryPath := some "/b" } envC3 valsW).err =
        some (.overriddenConfig kBackupDirectoryPath) ∧
      (configureGeneral { backupDirectoryPath := some "/b" } envC3 valsW).ok = true ∧
      (configureGeneral { backupDirectoryPath := some "/b" } envC3 valsW).state.writeLog = [] ∧
      Event.writeCalled ∉
        (configureGeneral { backupDirectoryPath := some "/b" } envC3 valsW).state.events) :=
  ⟨by decide, by decide,
    c3_override_locked_keys.2.1 envC3 valsW "/b" (by decide) (by decide)⟩

/-- Witness for C4: the amended statement at the concrete custom performer
image input under a tolerated commit failure. -/
theorem c4_amended_payload_witness :
    envC4.writeResult = some (ConfigError.ext "rofail") ∧
    envC4.allowReadOnly = true ∧
    ((configureGeneral { customPerformerImageLocation := some "/p" } envC4 valsW).err =
        some (.readOnlyPayload []) ∧
      (configureGeneral { customPerformerImageLocation := some "/p" } envC4 valsW).state.writeLog =
        [(kCustomPerformerImageLocation, CValue.vs "/p")]) :=
  ⟨by decide, by decide,
    c4_amended_payload.1 envC4 valsW "/p" (ConfigError.ext "rofail") (by decide) (by decide)⟩

/-- Witness for C5: the amended scraping statement at a concrete user-agent
input whose commit fails. -/
theorem c5_amended_refresh_order_witness :
    (configureScraping { scraperUserAgent := some "ua" } envC5 valsW).state.events =
      [.refreshScraperCache, .writeCalled] ∧
    (configureScraping { scraperUserAgent := some "ua" } envC5 valsW).err ≠ none :=
  ⟨(c5_amended_refresh_order.2.2 "ua" envC5 valsW).1,
    (c5_amended_refresh_order.2.2 "ua" envC5 valsW).2 (ConfigError.ext "rofail") (by decide)⟩

/-- Witness for C6: the policy-failure conjunct at a store with MD5
calculation disabled and the oshash algorithm stored. -/
theorem c6_md5_policy_witness :
    getBool valsW kCalculateMD5 = false ∧
    HashAlgorithm.md5 ≠ getHashAlg valsW ∧
    ((configureGeneral { videoFileNamingAlgorithm := some .md5 } envW valsW).err =
        some .md5Required ∧
      (configureGeneral { videoFileNamingAlgorithm := some .md5 } envW valsW).ok = true ∧
      (configureGeneral { videoFileNamingAlgorithm := some .md5 } envW valsW).state.writeLog = [] ∧
      Event.writeCalled ∉
        (configureGeneral { videoFileNamingAlgorithm := some .md5 } envW valsW).state.events) :=
  ⟨by decide, by decide, c6_md5_policy.1 envW valsW (by decide) (by decide)⟩

/-- Witness for C7: the video-exclusion conjunct at the concrete
non-compiling pattern. -/
theorem c7_regex_validation_witness :
    "(" ∈ ["("] ∧
    envC7.regexCompile "(" ≠ none ∧
    ((∃ q m, (configureGeneral { excludes := some ["("] } envC7 valsW).err =
        some (.invalidVideoExclude q m)) ∧
      (configureGeneral { excludes := some ["("] } envC7 valsW).state.writeLog = [] ∧
      Event.writeCalled ∉
        (configureGeneral { excludes := some ["("] } envC7 valsW).state.events) :=
  ⟨by decide, by decide, c7_regex_validation.1 envC7 valsW ["("] "(" (by decide) (by decide)⟩

/-- Witness for C8: the ffmpeg conjunct at a concrete path change with a
successful commit. -/
theorem c8_ffmpeg_refresh_witness :
    envW.writeResult = none ∧
    "/bin/ffmpeg" ≠ getString valsW kFFMpegPath ∧
    ((configureGeneral { ffmpegPath := some "/bin/ffmpeg" } envW valsW).state.events =
        [.writeCalled, .refreshConfig, .refreshFFMpeg, .refreshStreamManager] ∧
      (configureGeneral { ffmpegPath := some "/bin/ffmpeg" } envW valsW).err = none) :=
  ⟨by decide, by decide,
    c8_ffmpeg_refresh.1 envW valsW "/bin/ffmpeg" (by decide) (by decide) (by decide)⟩

/-- Witness for C9: the empty-username conjunct at the benign environment. -/
theorem c9_generate_api_key_witness :
    ({} : GenerateAPIKeyInput).clear.getD false = false ∧
    getString valsW kUsername = "" ∧
    ((generateAPIKeyRun {} envW valsW).key = "" ∧
      (kApiKey, CValue.vs "") ∈ (generateAPIKeyRun {} envW valsW).state.writeLog ∧
      (envW.writeResult = none → (generateAPIKeyRun {} envW valsW).err = none)) :=
  ⟨by decide, by decide, c9_generate_api_key.1 {} envW valsW (by decide) (by decide)⟩

/-- Witness for C10: the new-nonexistent-path conjunct at the concrete
single-entry stash list. -/
theorem c10_stash_paths_witness :
    inC10.stashes = some ([] ++ (⟨"/new", false, false⟩ : StashInput) :: []) ∧
    (getStashPaths valsW).any
      (fun p => p.path = (⟨"/new", false, false⟩ : StashInput).path) = false ∧
    (envC10.dirExists "/new").1 = false ∧
    ((configureGeneral inC10 envC10 valsW).err = (envC10.dirExists "/new").2 ∧
      (configureGeneral inC10 envC10 valsW).ok = true ∧
      (configureGeneral inC10 envC10 valsW).state.writeLog = [] ∧
      Event.writeCalled ∉ (configureGeneral inC10 envC10 valsW).state.events) :=
  ⟨by decide, by decide, by decide,
    c10_stash_paths.2 inC10 envC10 valsW [] ⟨"/new", false, false⟩ [] (by decide)
      (by simp) (by decide) (by decide)⟩

end Stash
